import Mathlib

/-!
A shallow embedding of the kvndb persistence subsystem (Go sources:
`kvndb.go`, `persistence.go`, `utils.go`, `errors.go`), together with proofs
about the embedded operations.

Modelling conventions:
* Go byte slices (`[]byte`) and Go strings are modelled as `List Nat`
  (one entry per byte / character code); every byte of a real slice is < 256.
* The in-memory map `map[string][]byte` is modelled as an association list
  `List (List Nat × List Nat)` whose keys are unique; insertion overwrites
  in place and appends fresh keys at the end (Go map semantics up to the
  unspecified iteration order, which is fixed here to list order).
* The snapshot directory is a list of files (name, content, regular-flag).
  `ioutil.ReadDir` order is irrelevant to the embedded functions (they either
  take a maximum or sort).
* `crypto/sha256` is modelled as an arbitrary deterministic digest function
  `hash : List Nat → List Nat` passed as a parameter; the embedded code only
  uses determinism and byte equality of digests.
* A single `fd.Read` on a regular file returns `min l avail` bytes and
  reports `io.EOF` exactly when `avail = 0` and `l > 0`.
* Mutation through the `*db` pointer is modelled by state passing: each
  function that receives `*db` returns the (possibly updated) `Db`.
-/

/-- Error values of the embedded code: the exported errors of `errors.go`,
the two decoder errors of `utils.go`, `io.EOF`, and generic filesystem
failures (modelled without their OS-specific payloads). -/
inductive KvErr where
  | keyNotFound
  | tooMuchHistory
  | snapshotNotFound
  | alreadyClosed
  | badSnapshot
  | shortRead
  | sizeMismatch
  | eof
  | fsNotFound
  | fsNotRegular
  | hexErr
deriving DecidableEq, Repr

/-- Model of `maxHistory` from `kvndb.go`. -/
def maxHistory : Nat := 999999

/-- Character codes of the `".kvndb"` snapshot extension. -/
def kvndbExt : List Nat := [46, 107, 118, 110, 100, 98]

/-- Character codes of the `".sha256"` checksum extension. -/
def sha256Ext : List Nat := [46, 115, 104, 97, 50, 53, 54]

/-- Decimal digits of `n`, most significant first (empty for `0`). -/
def decimalDigits (n : Nat) : List Nat := (Nat.digits 10 n).reverse

/-- Left-pad a digit list with zeros to width 6 (`fmt.Sprintf "%06d"`). -/
def padZeros6 (ds : List Nat) : List Nat := List.replicate (6 - ds.length) 0 ++ ds

/-- Model of `generateSnapshotName` from `utils.go`: `fmt.Sprintf("%06d.kvndb", n)`. -/
def generateSnapshotName (n : Nat) : List Nat :=
  (padZeros6 (decimalDigits n)).map (fun d => d + 48) ++ kvndbExt

/-- Model of `generateChecksumName`: `fmt.Sprintf("%06d.sha256", n)`. -/
def generateChecksumName (n : Nat) : List Nat :=
  (padZeros6 (decimalDigits n)).map (fun d => d + 48) ++ sha256Ext

/-- ASCII decimal digit test, `[0-9]`. -/
def isDigitChar (c : Nat) : Bool := 48 ≤ c && c ≤ 57

/-- Model of `isSnapshotName` from `utils.go`: the regex `^[0-9]{6}\.kvndb$`. -/
def isSnapshotName (s : List Nat) : Bool :=
  s.length == 12 && (s.take 6).all isDigitChar && s.drop 6 == kvndbExt

/-- Value of a decimal digit-character string (`strconv.Atoi` on an
all-digit string; only ever applied to such strings by the code). -/
def digitsVal (ds : List Nat) : Nat := ds.foldl (fun a c => a * 10 + (c - 48)) 0

/-- Model of `parseSnapshotName` from `utils.go`: `strings.Split(s, ".")[0]` is the
prefix before the first `'.'` (code 46), then `strconv.Atoi`. -/
def parseSnapshotName (s : List Nat) : Nat :=
  digitsVal (s.takeWhile (fun c => !(c == 46)))

/-- Model of `uint32ToBytes` from `utils.go`: `binary.LittleEndian.PutUint32`.  The
`% 2^32` reflects the conversion to the Go `uint32` type at call sites. -/
def uint32ToBytes (data : Nat) : List Nat :=
  [data % 2 ^ 32 % 256, data % 2 ^ 32 / 2 ^ 8 % 256,
   data % 2 ^ 32 / 2 ^ 16 % 256, data % 2 ^ 32 / 2 ^ 24 % 256]

/-- Model of `bytesToUint32` from `utils.go`: `binary.LittleEndian.Uint32`.  Real
file bytes are < 256; the `% 256` is the byte-type bound of each cell. -/
def bytesToUint32 (data : List Nat) : Nat :=
  data.getD 0 0 % 256 + data.getD 1 0 % 256 * 2 ^ 8 +
    data.getD 2 0 % 256 * 2 ^ 16 + data.getD 3 0 % 256 * 2 ^ 24

/-- Model of `packBytes` from `utils.go`: frame-length, key-length, key,
value-length, value, all length fields 4-byte little-endian. -/
def packBytes (key value : List Nat) : List Nat :=
  uint32ToBytes (8 + key.length + value.length) ++
    uint32ToBytes key.length ++ key ++ uint32ToBytes value.length ++ value

/-- ASCII code of the hex digit for `n < 16` (`encoding/hex`, lowercase). -/
def hexDigitChar (n : Nat) : Nat := if n < 10 then 48 + n else 87 + n

/-- Model of `hex.EncodeToString` on a byte slice. -/
def hexEncode (bs : List Nat) : List Nat :=
  (bs.map (fun b => [hexDigitChar (b / 16), hexDigitChar (b % 16)])).flatten

/-- Value of one hex digit character (`encoding/hex` accepts `0-9a-fA-F`). -/
def hexDigitVal (c : Nat) : Option Nat :=
  if 48 ≤ c ∧ c ≤ 57 then some (c - 48)
  else if 97 ≤ c ∧ c ≤ 102 then some (c - 87)
  else if 65 ≤ c ∧ c ≤ 70 then some (c - 55)
  else none

/-- Model of `hex.DecodeString`: `none` models its error return. -/
def hexDecode : List Nat → Option (List Nat)
  | [] => some []
  | [_] => none
  | c1 :: c2 :: rest =>
    match hexDigitVal c1, hexDigitVal c2, hexDecode rest with
    | some h, some l, some tail => some ((h * 16 + l) :: tail)
    | _, _, _ => none

/-- One `fd.Read` into a buffer of length `l` followed by the
`read != int(l)` check of the closure `r` inside `readNext` (`utils.go`):
full data when available, `io.EOF` on an empty stream, otherwise the
`errReadToLittle` short-read error.  Returns the bytes and the rest of the
stream. -/
def readExact (s : List Nat) (l : Nat) : Except KvErr (List Nat × List Nat) :=
  if l ≤ s.length then .ok (s.take l, s.drop l)
  else if s.length = 0 then .error .eof
  else .error .shortRead

/-- Model of `readNext` from `utils.go`: frame length, key length, key, value
length, value; then the `dfLen != 8+kLen+vLen` consistency check (uint32
arithmetic).  Also returns the unread remainder of the stream. -/
def readNext (s : List Nat) : Except KvErr ((List Nat × List Nat) × List Nat) :=
  match readExact s 4 with
  | .error e => .error e
  | .ok (dfLenBytes, s1) =>
    match readExact s1 4 with
    | .error e => .error e
    | .ok (kLenBytes, s2) =>
      match readExact s2 (bytesToUint32 kLenBytes) with
      | .error e => .error e
      | .ok (key, s3) =>
        match readExact s3 4 with
        | .error e => .error e
        | .ok (vLenBytes, s4) =>
          match readExact s4 (bytesToUint32 vLenBytes) with
          | .error e => .error e
          | .ok (value, s5) =>
            if bytesToUint32 dfLenBytes ≠
                (8 + bytesToUint32 kLenBytes + bytesToUint32 vLenBytes) % 2 ^ 32 then
              .error .sizeMismatch
            else .ok ((key, value), s5)

/-- Spec-level restatement of the decoder's behaviour (named after the
spec's `decode_next` wording, corrected): clean end-of-stream (`io.EOF`)
whenever an exact-length read starts with zero bytes remaining — at the
frame-length field, at the key-length or value-length fields, or at the
key or value bytes; `ShortRead` when a read returns a positive but
insufficient number of bytes; `SizeMismatch` when all reads succeed but
the declared frame length differs from `8 + key_length + value_length`
(uint32 arithmetic). -/
def readNextSpec (s : List Nat) : Except KvErr ((List Nat × List Nat) × List Nat) :=
  if s.length = 0 then .error .eof
  else if s.length < 4 then .error .shortRead
  else
    let dfLen := bytesToUint32 (s.take 4)
    let s1 := s.drop 4
    if s1.length = 0 then .error .eof
    else if s1.length < 4 then .error .shortRead
    else
      let kLen := bytesToUint32 (s1.take 4)
      let s2 := s1.drop 4
      if s2.length < kLen then
        (if s2.length = 0 then .error .eof else .error .shortRead)
      else
        let key := s2.take kLen
        let s3 := s2.drop kLen
        if s3.length = 0 then .error .eof
        else if s3.length < 4 then .error .shortRead
        else
          let vLen := bytesToUint32 (s3.take 4)
          let s4 := s3.drop 4
          if s4.length < vLen then
            (if s4.length = 0 then .error .eof else .error .shortRead)
          else
            if dfLen ≠ (8 + kLen + vLen) % 2 ^ 32 then .error .sizeMismatch
            else .ok ((key, s4.take vLen), s4.drop vLen)

/-- A directory entry: file name, byte content, and whether it is a
regular file (`fi.Mode().IsRegular()`). -/
structure FsFile where
  name : List Nat
  content : List Nat
  isRegular : Bool
deriving DecidableEq, Repr

/-- A directory (`ioutil.ReadDir` result); file names are unique in a real
filesystem, stated as a hypothesis where needed. -/
abbrev Dir := List FsFile

/-- Look up a directory entry by name. -/
def findFile (dir : Dir) (n : List Nat) : Option FsFile :=
  dir.find? (fun f => f.name == n)

/-- Open a file for reading and read it whole (`os.Open` + full read /
`ioutil.ReadFile`). -/
def readFile (dir : Dir) (n : List Nat) : Except KvErr (List Nat) :=
  match findFile dir n with
  | none => .error .fsNotFound
  | some f => if f.isRegular then .ok f.content else .error .fsNotRegular

/-- Model of `ioutil.WriteFile`: create or truncate-and-rewrite. -/
def writeFile (dir : Dir) (n : List Nat) (c : List Nat) : Except KvErr Dir :=
  match findFile dir n with
  | none => .ok (dir ++ [⟨n, c, true⟩])
  | some f =>
    if f.isRegular then
      .ok (dir.map (fun g => if g.name == n then { g with content := c } else g))
    else .error .fsNotRegular

/-- Model of `os.OpenFile(path, O_WRONLY|O_CREATE, 0666)` (note: no `O_TRUNC` in
`getSnapshotFDForWriting`) followed by writing `w` from offset 0: a fresh
file holds exactly `w`; an existing file keeps any old bytes beyond the
written prefix. -/
def overlayWrite (dir : Dir) (n : List Nat) (w : List Nat) : Except KvErr Dir :=
  match findFile dir n with
  | none => .ok (dir ++ [⟨n, w, true⟩])
  | some f =>
    if f.isRegular then
      .ok (dir.map (fun g =>
        if g.name == n then { g with content := w ++ g.content.drop w.length } else g))
    else .error .fsNotRegular

/-- Model of `os.Remove`. -/
def removeFile (dir : Dir) (n : List Nat) : Except KvErr Dir :=
  match findFile dir n with
  | none => .error .fsNotFound
  | some _ => .ok (dir.filter (fun f => !(f.name == n)))

/-- Model of `getAllSnapshotIds` from `utils.go`: regular files matching the
snapshot pattern, parsed and sorted ascending (`sort.Slice`). -/
def getAllSnapshotIds (dir : Dir) : List Nat :=
  ((dir.filter (fun f => f.isRegular && isSnapshotName f.name)).map
    (fun f => parseSnapshotName f.name)).insertionSort (· ≤ ·)

/-- Model of `getMaxSnapshotId` from `utils.go`: fold keeping the largest parsed
identifier of a regular snapshot-named file, starting from 0. -/
def getMaxSnapshotId (dir : Dir) : Nat :=
  dir.foldl
    (fun maxId f =>
      if f.isRegular && isSnapshotName f.name then
        if parseSnapshotName f.name > maxId then parseSnapshotName f.name else maxId
      else maxId)
    0

/-- Delete the snapshot file and then the checksum file of each listed
identifier, in order, stopping at the first failure (the loop body of
`cleanupSnapshotsUpTo`).  Partial deletion is preserved in the returned
directory. -/
def removePairs (dir : Dir) : List Nat → Dir × Except KvErr Unit
  | [] => (dir, .ok ())
  | id :: rest =>
    match removeFile dir (generateSnapshotName id) with
    | .error e => (dir, .error e)
    | .ok dir1 =>
      match removeFile dir1 (generateChecksumName id) with
      | .error e => (dir1, .error e)
      | .ok dir2 => removePairs dir2 rest

/-- Model of `cleanupSnapshotsUpTo` (checksum-pair variant): `keep = hist + 1`;
do nothing when at most `keep` snapshots exist, otherwise delete the
oldest `count - keep` identifier pairs. -/
def cleanupSnapshotsUpTo (dir : Dir) (hist : Nat) : Dir × Except KvErr Unit :=
  let keep := hist + 1
  let ids := getAllSnapshotIds dir
  if ids.length ≤ keep then (dir, .ok ())
  else removePairs dir (ids.take (ids.length - keep))

section Digest

-- Model of `crypto/sha256`, abstracted: any deterministic digest of a byte
-- string (the embedded code relies only on determinism and digest equality).
variable (hash : List Nat → List Nat)

/-- Model of `getSnapshotChecksum`: digest of the snapshot file's content. -/
def getSnapshotChecksum (id : Nat) (dir : Dir) : Except KvErr (List Nat) :=
  match readFile dir (generateSnapshotName id) with
  | .error e => .error e
  | .ok b => .ok (hash b)

/-- Model of `writeSnapshotChecksum`: digest the just-written snapshot and persist
the raw digest bytes to the checksum path. -/
def writeSnapshotChecksum (id : Nat) (dir : Dir) : Except KvErr Dir :=
  match getSnapshotChecksum hash id dir with
  | .error e => .error e
  | .ok h => writeFile dir (generateChecksumName id) h

/-- Model of `verifySnapshotChecksum`: stored digest versus recomputed digest,
`ErrBadSnapshot` when they differ. -/
def verifySnapshotChecksum (id : Nat) (dir : Dir) : Except KvErr Unit :=
  match readFile dir (generateChecksumName id) with
  | .error e => .error e
  | .ok stored =>
    match getSnapshotChecksum hash id dir with
    | .error e => .error e
    | .ok h => if stored = h then .ok () else .error .badSnapshot

end Digest

/-- The store state (`type db struct`): entry map and closed flag.  The
mutex is not modelled (single-threaded semantics). -/
structure Db where
  data : List (List Nat × List Nat)
  isClosed : Bool
deriving DecidableEq, Repr

/-- Go map insert `m[k] = v`: overwrite in place or append a fresh key. -/
def mapInsert (m : List (List Nat × List Nat)) (k v : List Nat) :
    List (List Nat × List Nat) :=
  if m.any (fun p => p.1 == k) then
    m.map (fun p => if p.1 == k then (k, v) else p)
  else m ++ [(k, v)]

/-- Go map lookup `m[k]`. -/
def mapLookup (m : List (List Nat × List Nat)) (k : List Nat) :
    Option (List Nat) :=
  (m.find? (fun p => p.1 == k)).map (fun p => p.2)

/-- Go map `delete(m, k)`. -/
def mapRemove (m : List (List Nat × List Nat)) (k : List Nat) :
    List (List Nat × List Nat) :=
  m.filter (fun p => !(p.1 == k))

/-- The serialization loop of `save` (`persistence.go`): hex-decode each
stored key and append its frame.  Returns the bytes written before any
failure together with the loop's outcome, mirroring that earlier frames
are already in the file when a later key fails to decode. -/
def encodeEntries : List (List Nat × List Nat) → List Nat × Except KvErr Unit
  | [] => ([], .ok ())
  | (ks, v) :: rest =>
    match hexDecode ks with
    | none => ([], .error .hexErr)
    | some key =>
      let (bs, res) := encodeEntries rest
      (packBytes key v ++ bs, res)

section Engine

variable (hash : List Nat → List Nat)

/-- Model of `save` from `persistence.go` (checksum variant): next
identifier, open snapshot file, write all frames, flush/sync/close (no
byte-level effect), write checksum, retention sweep.  The input `Db` is
returned at every exit, mirroring that `save` never assigns to `d.data`;
the success value is the identifier used. -/
def save (d : Db) (dir : Dir) (hist : Nat) : Db × Dir × Except KvErr Nat :=
  let maxId := getMaxSnapshotId dir
  let id := maxId + 1
  match overlayWrite dir (generateSnapshotName id) (encodeEntries d.data).1 with
  | .error e => (d, dir, .error e)
  | .ok dir1 =>
    match (encodeEntries d.data).2 with
    | .error e => (d, dir1, .error e)
    | .ok _ =>
      match writeSnapshotChecksum hash id dir1 with
      | .error e => (d, dir1, .error e)
      | .ok dir2 =>
        match cleanupSnapshotsUpTo dir2 hist with
        | (dir3, .error e) => (d, dir3, .error e)
        | (dir3, .ok _) => (d, dir3, .ok id)

/-- Decode loop of `load`: read frames until `io.EOF`, inserting each
decoded pair under the hex-encoded key; any other error stops the loop
with the map populated by the frames decoded so far. -/
def loadLoop (data : List (List Nat × List Nat)) (s : List Nat) :
    List (List Nat × List Nat) × Except KvErr Unit :=
  match h : readNext s with
  | .error .eof => (data, .ok ())
  | .error e => (data, .error e)
  | .ok ((k, v), rest) => loadLoop (mapInsert data (hexEncode k) v) rest
termination_by s.length
decreasing_by
  have rex : ∀ (u : List Nat) (l : Nat) (p : List Nat × List Nat),
      readExact u l = .ok p → p.2.length + l = u.length := by
    intro u l p hp
    unfold readExact at hp
    split at hp
    · simp only [Except.ok.injEq] at hp
      subst hp
      simp only [List.length_drop]
      omega
    · split at hp <;> simp at hp
  have aux : ∀ (t : List Nat) (r : (List Nat × List Nat) × List Nat),
      readNext t = .ok r → r.2.length < t.length := by
    intro t r ht
    unfold readNext at ht
    cases h1 : readExact t 4 with
    | error e => rw [h1] at ht; exact absurd ht (by simp)
    | ok p1 =>
      obtain ⟨b1, t1⟩ := p1
      rw [h1] at ht
      dsimp only at ht
      cases h2 : readExact t1 4 with
      | error e => rw [h2] at ht; exact absurd ht (by simp)
      | ok p2 =>
        obtain ⟨b2, t2⟩ := p2
        rw [h2] at ht
        dsimp only at ht
        cases h3 : readExact t2 (bytesToUint32 b2) with
        | error e => rw [h3] at ht; exact absurd ht (by simp)
        | ok p3 =>
          obtain ⟨b3, t3⟩ := p3
          rw [h3] at ht
          dsimp only at ht
          cases h4 : readExact t3 4 with
          | error e => rw [h4] at ht; exact absurd ht (by simp)
          | ok p4 =>
            obtain ⟨b4, t4⟩ := p4
            rw [h4] at ht
            dsimp only at ht
            cases h5 : readExact t4 (bytesToUint32 b4) with
            | error e => rw [h5] at ht; exact absurd ht (by simp)
            | ok p5 =>
              obtain ⟨b5, t5⟩ := p5
              rw [h5] at ht
              dsimp only at ht
              split at ht
              · exact absurd ht (by simp)
              · simp only [Except.ok.injEq] at ht
                have e1 := rex _ _ _ h1
                have e2 := rex _ _ _ h2
                have e3 := rex _ _ _ h3
                have e4 := rex _ _ _ h4
                have e5 := rex _ _ _ h5
                have hr : r.2.length = t5.length := by rw [← ht]
                simp only at e1 e2 e3 e4 e5
                omega
  exact aux s _ h

/-- Model of `load` from `persistence.go` (checksum variant): reset the
map, find the latest identifier (`ErrSnapshotNotFound` when 0), verify its
checksum, then decode the snapshot file. -/
def load (d : Db) (dir : Dir) : Db × Except KvErr Unit :=
  let d0 : Db := { d with data := [] }
  let id := getMaxSnapshotId dir
  if id = 0 then (d0, .error .snapshotNotFound)
  else
    match verifySnapshotChecksum hash id dir with
    | .error e => (d0, .error e)
    | .ok _ =>
      match readFile dir (generateSnapshotName id) with
      | .error e => (d0, .error e)
      | .ok b =>
        let (dataF, res) := loadLoop [] b
        ({ d0 with data := dataF }, res)

end Engine

/-- Model of `newDb` from `kvndb.go`. -/
def newDb : Db := { data := [], isClosed := false }

/-- Model of `db.Put`. -/
def dbPut (d : Db) (key value : List Nat) : Db × Except KvErr Unit :=
  if d.isClosed then (d, .error .alreadyClosed)
  else ({ d with data := mapInsert d.data (hexEncode key) value }, .ok ())

/-- Model of `db.Get`. -/
def dbGet (d : Db) (key : List Nat) : Except KvErr (List Nat) :=
  if d.isClosed then .error .alreadyClosed
  else
    match mapLookup d.data (hexEncode key) with
    | none => .error .keyNotFound
    | some v => .ok v

/-- Model of `db.Delete`. -/
def dbDelete (d : Db) (key : List Nat) : Db × Except KvErr Unit :=
  if d.isClosed then (d, .error .alreadyClosed)
  else ({ d with data := mapRemove d.data (hexEncode key) }, .ok ())

/-- Model of `db.Size`: no closed-check in the source; the length of the
map (which `Close` sets to nil, of length 0). -/
def dbSize (d : Db) : Nat := d.data.length

/-- Model of `db.Keys`: the eventual channel contents (`hexToBytes`
panics modelled as `none`). -/
def dbKeys (d : Db) : Except KvErr (List (Option (List Nat))) :=
  if d.isClosed then .error .alreadyClosed
  else .ok (d.data.map (fun p => hexDecode p.1))

/-- Model of `db.KeysAndValues`. -/
def dbKeysAndValues (d : Db) :
    Except KvErr (List (Option (List Nat) × List Nat)) :=
  if d.isClosed then .error .alreadyClosed
  else .ok (d.data.map (fun p => (hexDecode p.1, p.2)))

/-- Model of `db.Save` from `kvndb.go`: closed-check, then the
`maxHistory` ceiling, then the snapshot engine. -/
def dbSave (hash : List Nat → List Nat) (d : Db) (dir : Dir) (hist : Nat) :
    Db × Dir × Except KvErr Nat :=
  if d.isClosed then (d, dir, .error .alreadyClosed)
  else if hist > maxHistory then (d, dir, .error .tooMuchHistory)
  else save hash d dir hist

/-- Model of `db.Load` from `kvndb.go`. -/
def dbLoad (hash : List Nat → List Nat) (d : Db) (dir : Dir) :
    Db × Except KvErr Unit :=
  if d.isClosed then (d, .error .alreadyClosed)
  else load hash d dir

/-- Model of `db.Close`: reset the data (to nil) and mark closed. -/
def dbClose (d : Db) : Db × Except KvErr Unit :=
  if d.isClosed then (d, .error .alreadyClosed)
  else ({ data := [], isClosed := true }, .ok ())

/-- Proof abbreviation: the directory holding the snapshot/checksum file
pairs of identifiers `l, l+1, ..., l+cnt-1`, every snapshot file with
content `B` and every checksum file with content `C`, in identifier order.
This is the shape a directory takes after sequential saves of one store. -/
def pairDir (B C : List Nat) (l cnt : Nat) : Dir :=
  ((List.range' l cnt).map (fun i =>
    [⟨generateSnapshotName i, B, true⟩, ⟨generateChecksumName i, C, true⟩])).flatten

/-- Run `save` repeatedly (`N` sequential `save` calls), collecting the
identifiers produced, stopping at the first failure. -/
def saveRun (hash : List Nat → List Nat) (d : Db) (hist : Nat) :
    Nat → Dir → Except KvErr (List Nat × Dir)
  | 0, dir => .ok ([], dir)
  | n + 1, dir =>
    match save hash d dir hist with
    | (_, dir1, .ok id) =>
      match saveRun hash d hist n dir1 with
      | .ok (ids, dirF) => .ok (id :: ids, dirF)
      | .error e => .error e
    | (_, _, .error e) => .error e

/-- Proof abbreviation: the identifiers whose file pairs the retention
sweep of `cleanupSnapshotsUpTo dir hist` deletes - the oldest
`count - (hist+1)` entries of the ascending identifier list (empty when
the count is at most `hist+1`, since `take 0` is empty). -/
def toDeleteIds (dir : Dir) (hist : Nat) : List Nat :=
  (getAllSnapshotIds dir).take ((getAllSnapshotIds dir).length - (hist + 1))

/-- Proof abbreviation: `true` when `f` belongs to none of the listed
identifiers' snapshot/checksum file pairs, so the retention sweep keeps
it. -/
def keepsFile (ids : List Nat) (f : FsFile) : Bool :=
  ids.all (fun i => !(f.name == generateSnapshotName i) &&
    !(f.name == generateChecksumName i))

/-! Theorems.  First, facts about snapshot names and identifiers. -/

lemma decimalDigits_lt (n : Nat) : ∀ d ∈ decimalDigits n, d < 10 := by
  intro d hd
  exact Nat.digits_lt_base (by norm_num) (List.mem_reverse.mp hd)

lemma padZeros6_digits_lt (n : Nat) : ∀ d ∈ padZeros6 (decimalDigits n), d < 10 := by
  intro d hd
  rcases List.mem_append.mp hd with h | h
  · have := List.eq_of_mem_replicate h
    omega
  · exact decimalDigits_lt n d h

lemma decimalDigits_foldl (n : Nat) :
    (decimalDigits n).foldl (fun a d => a * 10 + d) 0 = n := by
  induction n using Nat.strong_induction_on with
  | _ n ih =>
    rcases Nat.eq_zero_or_pos n with h0 | hpos
    · subst h0
      simp [decimalDigits]
    · have hd : Nat.digits 10 n = n % 10 :: Nat.digits 10 (n / 10) :=
        Nat.digits_def' (by norm_num) hpos
      have hlt : n / 10 < n := Nat.div_lt_self hpos (by norm_num)
      have := ih (n / 10) hlt
      simp only [decimalDigits] at this ⊢
      rw [hd, List.reverse_cons, List.foldl_append, this]
      simp only [List.foldl_cons, List.foldl_nil]
      omega

lemma foldl_digits_replicate (k : Nat) (ds : List Nat) :
    (List.replicate k 0 ++ ds).foldl (fun a d => a * 10 + d) 0 =
      ds.foldl (fun a d => a * 10 + d) 0 := by
  induction k with
  | zero => simp
  | succ k ih => simpa using ih

lemma padZeros6_foldl (n : Nat) :
    (padZeros6 (decimalDigits n)).foldl (fun a d => a * 10 + d) 0 = n := by
  rw [padZeros6, foldl_digits_replicate, decimalDigits_foldl]

lemma parse_generateSnapshotName (n : Nat) :
    parseSnapshotName (generateSnapshotName n) = n := by
  have hdig := padZeros6_digits_lt n
  rw [parseSnapshotName, generateSnapshotName]
  rw [List.takeWhile_append_of_pos (by
    intro a ha
    obtain ⟨d, hmem, hrfl⟩ := List.mem_map.mp ha
    have := hdig d hmem
    subst hrfl
    simp)]
  rw [show (kvndbExt.takeWhile (fun c => !(c == 46))) = [] from by decide]
  rw [List.append_nil, digitsVal, List.foldl_map]
  have : (fun (a : Nat) (c : Nat) => a * 10 + (c + 48 - 48)) =
      (fun (a : Nat) (d : Nat) => a * 10 + d) := by
    funext a c
    omega
  rw [this, padZeros6_foldl]

lemma parse_generateChecksumName (n : Nat) :
    parseSnapshotName (generateChecksumName n) = n := by
  have hdig := padZeros6_digits_lt n
  rw [parseSnapshotName, generateChecksumName]
  rw [List.takeWhile_append_of_pos (by
    intro a ha
    obtain ⟨d, hmem, hrfl⟩ := List.mem_map.mp ha
    have := hdig d hmem
    subst hrfl
    simp)]
  rw [show (sha256Ext.takeWhile (fun c => !(c == 46))) = [] from by decide]
  rw [List.append_nil, digitsVal, List.foldl_map]
  have : (fun (a : Nat) (c : Nat) => a * 10 + (c + 48 - 48)) =
      (fun (a : Nat) (d : Nat) => a * 10 + d) := by
    funext a c
    omega
  rw [this, padZeros6_foldl]

lemma generateSnapshotName_injective (m n : Nat)
    (h : generateSnapshotName m = generateSnapshotName n) : m = n := by
  have := parse_generateSnapshotName m
  rw [h, parse_generateSnapshotName] at this
  omega

lemma decimalDigits_length_le (n : Nat) (h : n ≤ 999999) :
    (decimalDigits n).length ≤ 6 := by
  rcases Nat.eq_zero_or_pos n with h0 | hpos
  · subst h0
    simp [decimalDigits]
  · have hle := Nat.base_pow_length_digits_le 10 n (by norm_num) (by omega)
    by_contra hgt
    have h7 : 7 ≤ (Nat.digits 10 n).length := by
      simpa [decimalDigits] using hgt
    have : (10 : Nat) ^ 7 ≤ 10 ^ (Nat.digits 10 n).length :=
      Nat.pow_le_pow_right (by norm_num) h7
    omega

lemma decimalDigits_length_ge (n : Nat) (h : 1000000 ≤ n) :
    7 ≤ (decimalDigits n).length := by
  have hlt := @Nat.lt_base_pow_length_digits 10 n (by norm_num)
  by_contra hle
  have h6 : (Nat.digits 10 n).length ≤ 6 := by
    simp only [decimalDigits, List.length_reverse] at hle
    omega
  have : (10 : Nat) ^ (Nat.digits 10 n).length ≤ 10 ^ 6 :=
    Nat.pow_le_pow_right (by norm_num) h6
  omega

lemma padZeros6_length (ds : List Nat) :
    (padZeros6 ds).length = max 6 ds.length := by
  simp [padZeros6]
  omega

lemma generateSnapshotName_length (n : Nat) :
    (generateSnapshotName n).length = max 6 (decimalDigits n).length + 6 := by
  simp [generateSnapshotName, padZeros6_length, kvndbExt]

lemma isSnapshotName_generate (n : Nat) (h : n ≤ 999999) :
    isSnapshotName (generateSnapshotName n) = true := by
  have hlen6 : ((padZeros6 (decimalDigits n)).map (fun d => d + 48)).length = 6 := by
    rw [List.length_map, padZeros6_length]
    have := decimalDigits_length_le n h
    omega
  rw [isSnapshotName, generateSnapshotName]
  rw [List.take_left' hlen6, List.drop_left' hlen6]
  simp only [List.length_append, hlen6]
  rw [show (kvndbExt.length = 6) from by decide]
  simp only [Nat.reduceAdd, beq_self_eq_true, Bool.true_and, Bool.and_true]
  rw [List.all_eq_true]
  intro c hc
  obtain ⟨d, hmem, hrfl⟩ := List.mem_map.mp hc
  have := padZeros6_digits_lt n d hmem
  subst hrfl
  simp only [isDigitChar, Bool.and_eq_true, decide_eq_true_eq]
  omega

lemma isSnapshotName_generate_big (n : Nat) (h : 1000000 ≤ n) :
    isSnapshotName (generateSnapshotName n) = false := by
  have h7 := decimalDigits_length_ge n h
  rw [isSnapshotName]
  have : (generateSnapshotName n).length ≥ 13 := by
    rw [generateSnapshotName_length]
    omega
  simp only [Bool.and_eq_false_iff]
  left
  left
  simp
  omega

lemma isSnapshotName_checksumName (n : Nat) :
    isSnapshotName (generateChecksumName n) = false := by
  have : (generateChecksumName n).length ≥ 13 := by
    simp [generateChecksumName, padZeros6_length, sha256Ext]
  rw [isSnapshotName]
  simp only [Bool.and_eq_false_iff]
  left
  left
  simp
  omega

lemma generateSnapshotName_ne_checksumName (m n : Nat) :
    generateSnapshotName m ≠ generateChecksumName n := by
  intro h
  have hm : (generateSnapshotName m).getLast? = some 98 := by
    rw [generateSnapshotName, List.getLast?_append]
    rfl
  have hn : (generateChecksumName n).getLast? = some 54 := by
    rw [generateChecksumName, List.getLast?_append]
    rfl
  rw [h, hn] at hm
  exact absurd hm (by simp)

lemma foldlDigits_le (ds : List Nat) : ∀ a : Nat, (∀ c ∈ ds, c - 48 ≤ 9) →
    ds.foldl (fun x c => x * 10 + (c - 48)) a ≤ (a + 1) * 10 ^ ds.length - 1 := by
  induction ds with
  | nil =>
    intro a _
    simp
  | cons c cs ih =>
    intro a hall
    simp only [List.foldl_cons, List.length_cons]
    have hc : c - 48 ≤ 9 := hall c (by simp)
    have step := ih (a * 10 + (c - 48)) (fun x hx => hall x (by simp [hx]))
    have hpow : (1 : Nat) ≤ 10 ^ cs.length := Nat.one_le_pow _ _ (by norm_num)
    have hmul : (a * 10 + (c - 48) + 1) * 10 ^ cs.length ≤ (a + 1) * 10 ^ (cs.length + 1) := by
      rw [pow_succ]
      calc (a * 10 + (c - 48) + 1) * 10 ^ cs.length
          ≤ ((a + 1) * 10) * 10 ^ cs.length := Nat.mul_le_mul_right _ (by omega)
        _ = (a + 1) * (10 ^ cs.length * 10) := by ring
    omega

lemma isSnapshotName_parse_le (s : List Nat) (h : isSnapshotName s = true) :
    parseSnapshotName s ≤ 999999 := by
  rw [isSnapshotName] at h
  simp only [Bool.and_eq_true, beq_iff_eq, List.all_eq_true] at h
  obtain ⟨⟨hlen, hdig⟩, hext⟩ := h
  have hs : s = s.take 6 ++ s.drop 6 := (List.take_append_drop 6 s).symm
  rw [parseSnapshotName]
  conv_lhs => rw [hs]
  rw [List.takeWhile_append_of_pos (by
    intro a ha
    have := hdig a ha
    simp [isDigitChar] at this
    simp
    omega)]
  rw [hext, show (kvndbExt.takeWhile (fun c => !(c == 46))) = [] from by decide]
  rw [List.append_nil]
  have htl : (s.take 6).length = 6 := by
    rw [List.length_take]
    omega
  have hbound := foldlDigits_le (s.take 6) 0 (by
    intro c hc
    have := hdig c hc
    simp [isDigitChar] at this
    omega)
  rw [htl] at hbound
  simpa [digitsVal] using hbound

/-- C10: for identifiers 1..999999 the generated file name matches the
discovery pattern and parses back to the identifier; for identifiers at or
above 1000000 the generated 7-digit-or-longer name does not match the
6-digit pattern, so such snapshots are invisible to discovery. -/
theorem generateSnapshotName_discovery (id : Nat) :
    (1 ≤ id → id ≤ 999999 →
      isSnapshotName (generateSnapshotName id) = true ∧
      parseSnapshotName (generateSnapshotName id) = id) ∧
    (1000000 ≤ id → isSnapshotName (generateSnapshotName id) = false) := by
  refine ⟨fun _ h2 => ⟨isSnapshotName_generate id h2, parse_generateSnapshotName id⟩,
    fun hbig => isSnapshotName_generate_big id hbig⟩

/-- Witness for C10 at identifiers 5 and 1000000. -/
theorem generateSnapshotName_discovery_witness :
    (isSnapshotName (generateSnapshotName 5) = true ∧
      parseSnapshotName (generateSnapshotName 5) = 5) ∧
    isSnapshotName (generateSnapshotName 1000000) = false :=
  ⟨(generateSnapshotName_discovery 5).1 (by decide) (by decide),
    (generateSnapshotName_discovery 1000000).2 (by decide)⟩

/-! Facts about the 32-bit little-endian length fields and frames. -/

lemma uint32ToBytes_length (n : Nat) : (uint32ToBytes n).length = 4 := by
  simp [uint32ToBytes]

lemma bytesToUint32_uint32ToBytes (n : Nat) :
    bytesToUint32 (uint32ToBytes n) = n % 2 ^ 32 := by
  simp only [uint32ToBytes, bytesToUint32, List.getD_cons_zero, List.getD_cons_succ]
  omega

lemma take4_uint32ToBytes_append (n : Nat) (rest : List Nat) :
    ((uint32ToBytes n ++ rest).take 4) = uint32ToBytes n :=
  List.take_left' (uint32ToBytes_length n)

lemma drop4_uint32ToBytes_append (n : Nat) (rest : List Nat) :
    ((uint32ToBytes n ++ rest).drop 4) = rest :=
  List.drop_left' (uint32ToBytes_length n)

/-- C2: a frame produced by `packBytes` is the little-endian frame length
`8 + len(key) + len(value)`, the key length, the key bytes, the value
length, and the value bytes, and its decoded fields satisfy
`frame_length = 8 + key_length + value_length`. -/
theorem packBytes_frame_layout (key value : List Nat)
    (h : 8 + key.length + value.length < 2 ^ 32) :
    packBytes key value =
      uint32ToBytes (8 + key.length + value.length) ++ uint32ToBytes key.length ++
        key ++ uint32ToBytes value.length ++ value ∧
    bytesToUint32 ((packBytes key value).take 4) = 8 + key.length + value.length ∧
    bytesToUint32 (((packBytes key value).drop 4).take 4) = key.length ∧
    (((packBytes key value).drop 4).drop 4).take key.length = key ∧
    bytesToUint32 (((((packBytes key value).drop 4).drop 4).drop key.length).take 4) =
      value.length ∧
    (((((packBytes key value).drop 4).drop 4).drop key.length).drop 4) = value ∧
    bytesToUint32 ((packBytes key value).take 4) =
      8 + bytesToUint32 (((packBytes key value).drop 4).take 4) +
        bytesToUint32 (((((packBytes key value).drop 4).drop 4).drop key.length).take 4) := by
  have e0 : packBytes key value =
      uint32ToBytes (8 + key.length + value.length) ++ uint32ToBytes key.length ++
        key ++ uint32ToBytes value.length ++ value := rfl
  have hd4 : (packBytes key value).drop 4 =
      uint32ToBytes key.length ++ (key ++ (uint32ToBytes value.length ++ value)) := by
    rw [e0]
    simp only [List.append_assoc]
    exact drop4_uint32ToBytes_append _ _
  have hd44 : ((packBytes key value).drop 4).drop 4 =
      key ++ (uint32ToBytes value.length ++ value) := by
    rw [hd4]
    exact drop4_uint32ToBytes_append _ _
  have hd44k : (((packBytes key value).drop 4).drop 4).drop key.length =
      uint32ToBytes value.length ++ value := by
    rw [hd44]
    exact List.drop_left _ _
  refine ⟨e0, ?_, ?_, ?_, ?_, ?_, ?_⟩
  · rw [e0]
    simp only [List.append_assoc]
    rw [take4_uint32ToBytes_append, bytesToUint32_uint32ToBytes]
    omega
  · rw [hd4, take4_uint32ToBytes_append, bytesToUint32_uint32ToBytes]
    omega
  · rw [hd44]
    exact List.take_left _ _
  · rw [hd44k, take4_uint32ToBytes_append, bytesToUint32_uint32ToBytes]
    omega
  · rw [hd44k]
    exact drop4_uint32ToBytes_append _ _
  · rw [hd44k, hd4, take4_uint32ToBytes_append, take4_uint32ToBytes_append]
    rw [e0]
    simp only [List.append_assoc]
    rw [take4_uint32ToBytes_append]
    simp only [bytesToUint32_uint32ToBytes]
    omega

/-- Witness for C2 at a concrete one-byte key and value. -/
theorem packBytes_frame_layout_witness :
    8 + [1].length + [170].length < 2 ^ 32 ∧
    bytesToUint32 ((packBytes [1] [170]).take 4) = 8 + [1].length + [170].length :=
  ⟨by decide, (packBytes_frame_layout [1] [170] (by decide)).2.1⟩

/-! Characterization of the frame decoder (C3). -/

lemma readExact_of_le (s : List Nat) (l : Nat) (h : l ≤ s.length) :
    readExact s l = .ok (s.take l, s.drop l) := by
  rw [readExact, if_pos h]

lemma readExact_of_nil (s : List Nat) (l : Nat) (h0 : s.length = 0) (hl : 0 < l) :
    readExact s l = .error .eof := by
  rw [readExact, if_neg (by omega), if_pos h0]

lemma readExact_of_short (s : List Nat) (l : Nat) (h0 : 0 < s.length)
    (hl : s.length < l) : readExact s l = .error .shortRead := by
  rw [readExact, if_neg (by omega), if_neg (by omega)]

/-- C3 (amended): the decoder reports clean end-of-stream whenever an
exact-length read begins with zero bytes remaining (not only at the very
first field), reports `ShortRead` when a read returns a positive but
insufficient number of bytes, and reports `SizeMismatch` when every field
is read but the declared frame length differs from
`8 + key_length + value_length`; consequently a truncation strictly inside
a field or inside the key/value bytes makes the decode loop fail, while a
truncation at a read boundary ends the loop cleanly.  Stated as: `readNext`
equals the spec-level `readNextSpec` on every stream. -/
theorem readNext_error_modes (s : List Nat) : readNext s = readNextSpec s := by
  rw [readNext, readNextSpec]
  by_cases h0 : s.length = 0
  · rw [readExact_of_nil s 4 h0 (by omega), if_pos h0]
  · by_cases h1 : s.length < 4
    · rw [readExact_of_short s 4 (by omega) h1, if_neg h0, if_pos h1]
    · rw [readExact_of_le s 4 (by omega), if_neg h0, if_neg h1]
      dsimp only
      by_cases h2 : (s.drop 4).length = 0
      · rw [readExact_of_nil _ 4 h2 (by omega), if_pos h2]
      · by_cases h3 : (s.drop 4).length < 4
        · rw [readExact_of_short _ 4 (by omega) h3, if_neg h2, if_pos h3]
        · rw [readExact_of_le _ 4 (by omega), if_neg h2, if_neg h3]
          dsimp only
          by_cases h4 : ((s.drop 4).drop 4).length < bytesToUint32 ((s.drop 4).take 4)
          · rw [if_pos h4]
            by_cases h5 : ((s.drop 4).drop 4).length = 0
            · rw [readExact_of_nil _ _ h5 (by omega), if_pos h5]
            · rw [readExact_of_short _ _ (by omega) h4, if_neg h5]
          · rw [if_neg h4, readExact_of_le _ _ (by omega)]
            dsimp only
            by_cases h6 : (((s.drop 4).drop 4).drop (bytesToUint32 ((s.drop 4).take 4))).length = 0
            · rw [readExact_of_nil _ 4 h6 (by omega), if_pos h6]
            · by_cases h7 :
                  (((s.drop 4).drop 4).drop (bytesToUint32 ((s.drop 4).take 4))).length < 4
              · rw [readExact_of_short _ 4 (by omega) h7, if_neg h6, if_pos h7]
              · rw [readExact_of_le _ 4 (by omega), if_neg h6, if_neg h7]
                dsimp only
                set s4 := (((s.drop 4).drop 4).drop (bytesToUint32 ((s.drop 4).take 4))).drop 4
                  with hs4
                by_cases h8 : s4.length < bytesToUint32
                    ((((s.drop 4).drop 4).drop (bytesToUint32 ((s.drop 4).take 4))).take 4)
                · rw [if_pos h8]
                  by_cases h9 : s4.length = 0
                  · rw [readExact_of_nil _ _ h9 (by omega), if_pos h9]
                  · rw [readExact_of_short _ _ (by omega) h8, if_neg h9]
                · rw [if_neg h8, readExact_of_le _ _ (by omega)]

/-- Counterexample to C3 as stated: the 4-byte stream `[9,0,0,0]` is a
frame truncated immediately after its frame-length field (the first field
was read in full, so end-of-stream did not occur at the very first field),
yet `readNext` reports clean end-of-stream and the decode loop of `load`
ends cleanly instead of failing. -/
theorem readNext_truncated_clean_eof :
    readNext [9, 0, 0, 0] = .error KvErr.eof ∧
    readExact [9, 0, 0, 0] 4 = .ok ([9, 0, 0, 0], []) ∧
    loadLoop [] [9, 0, 0, 0] = ([], .ok ()) := by
  refine ⟨by rfl, by rfl, ?_⟩
  rw [loadLoop]
  split
  · rfl
  · rename_i e hne h
    rw [show readNext [9, 0, 0, 0] = .error KvErr.eof from by rfl] at h
    cases h
    exact (hne rfl).elim
  · rename_i kv rest h
    rw [show readNext [9, 0, 0, 0] = .error KvErr.eof from by rfl] at h
    cases h

/-! Facts about `getMaxSnapshotId`. -/

lemma getMaxSnapshotId_eq_foldmax (dir : Dir) :
    getMaxSnapshotId dir =
      dir.foldl (fun m f =>
        max m (if f.isRegular && isSnapshotName f.name then parseSnapshotName f.name else 0))
        0 := by
  rw [getMaxSnapshotId]
  congr 1
  funext m f
  by_cases hp : f.isRegular && isSnapshotName f.name
  · rw [if_pos hp, if_pos hp]
    split <;> omega
  · rw [if_neg hp, if_neg hp]
    omega

lemma foldl_max_start (g : FsFile → Nat) (l : List FsFile) :
    ∀ a : Nat, l.foldl (fun m f => max m (g f)) a =
      max a (l.foldl (fun m f => max m (g f)) 0) := by
  induction l with
  | nil => intro a; simp
  | cons f l ih =>
    intro a
    simp only [List.foldl_cons]
    rw [ih (max a (g f)), ih (max 0 (g f))]
    omega

lemma getMaxSnapshotId_cons (f : FsFile) (dir : Dir) :
    getMaxSnapshotId (f :: dir) =
      max (if f.isRegular && isSnapshotName f.name then parseSnapshotName f.name else 0)
        (getMaxSnapshotId dir) := by
  rw [getMaxSnapshotId_eq_foldmax, getMaxSnapshotId_eq_foldmax, List.foldl_cons,
    foldl_max_start]
  omega

lemma getMaxSnapshotId_append (d1 d2 : Dir) :
    getMaxSnapshotId (d1 ++ d2) = max (getMaxSnapshotId d1) (getMaxSnapshotId d2) := by
  induction d1 with
  | nil =>
    simp only [List.nil_append]
    rw [getMaxSnapshotId_eq_foldmax []]
    simp
  | cons f d1 ih =>
    rw [List.cons_append, getMaxSnapshotId_cons, getMaxSnapshotId_cons, ih]
    omega

lemma getMaxSnapshotId_le (dir : Dir) (b : Nat)
    (h : ∀ f ∈ dir, (if f.isRegular && isSnapshotName f.name
      then parseSnapshotName f.name else 0) ≤ b) :
    getMaxSnapshotId dir ≤ b := by
  induction dir with
  | nil =>
    rw [getMaxSnapshotId_eq_foldmax]
    simp
  | cons f dir ih =>
    rw [getMaxSnapshotId_cons]
    have h1 := h f (by simp)
    have h2 := ih (fun g hg => h g (by simp [hg]))
    omega

lemma le_getMaxSnapshotId (dir : Dir) (f : FsFile) (hf : f ∈ dir) :
    (if f.isRegular && isSnapshotName f.name then parseSnapshotName f.name else 0) ≤
      getMaxSnapshotId dir := by
  induction dir with
  | nil => cases hf
  | cons g dir ih =>
    rw [getMaxSnapshotId_cons]
    rcases List.mem_cons.mp hf with h | h
    · subst h
      omega
    · have := ih h
      omega

lemma getMaxSnapshotId_bound (dir : Dir) : getMaxSnapshotId dir ≤ 999999 := by
  apply getMaxSnapshotId_le
  intro f _
  by_cases hp : f.isRegular && isSnapshotName f.name
  · rw [if_pos hp]
    exact isSnapshotName_parse_le f.name (by
      simp only [Bool.and_eq_true] at hp
      exact hp.2)
  · rw [if_neg hp]
    omega

lemma getMaxSnapshotId_zero (dir : Dir)
    (h : ∀ f ∈ dir, ¬(f.isRegular = true ∧ isSnapshotName f.name = true)) :
    getMaxSnapshotId dir = 0 := by
  have := getMaxSnapshotId_le dir 0 (fun f hf => by
    have hns : (f.isRegular && isSnapshotName f.name) = false := by
      rcases Bool.eq_false_or_eq_true (f.isRegular && isSnapshotName f.name) with hb | hb
      · simp only [Bool.and_eq_true] at hb
        exact absurd ⟨hb.1, hb.2⟩ (h f hf)
      · exact hb
    rw [hns]
    simp)
  omega

/-- C8: a save call, through the public `Save` wrapper or the engine
directly, never mutates the in-memory map: the store returned is the store
passed in, whether the call succeeds or fails at any step. -/
theorem save_never_mutates_map (hash : List Nat → List Nat) (d : Db) (dir : Dir)
    (hist : Nat) :
    (save hash d dir hist).1 = d ∧ (dbSave hash d dir hist).1 = d := by
  have hs : (save hash d dir hist).1 = d := by
    rw [save]
    repeat' split
    all_goals rfl
  refine ⟨hs, ?_⟩
  rw [dbSave]
  repeat' split
  all_goals first | rfl | exact hs

/-- C6 (amended): on a store that is not closed, a `Save` call with a
history depth above the 999999 ceiling fails with `TooMuchHistory` before
any I/O: the returned store and directory are exactly the inputs.  (On a
closed store the `AlreadyClosed` check fires first.) -/
theorem dbSave_tooMuchHistory (hash : List Nat → List Nat) (d : Db) (dir : Dir)
    (hist : Nat) (hopen : d.isClosed = false) (hhist : hist > maxHistory) :
    dbSave hash d dir hist = (d, dir, .error .tooMuchHistory) := by
  rw [dbSave, if_neg (by rw [hopen]; exact Bool.false_ne_true), if_pos hhist]

/-- Witness for C6 (amended) on a fresh store with depth 1000000. -/
theorem dbSave_tooMuchHistory_witness :
    dbSave (fun _ => []) newDb [] 1000000 = (newDb, [], .error .tooMuchHistory) :=
  dbSave_tooMuchHistory (fun _ => []) newDb [] 1000000 rfl (by decide)

/-- Counterexample to C6 as stated: on a closed store, a `Save` call with
history depth 1000000 (above the ceiling) fails with `AlreadyClosed`, not
`TooMuchHistory`, because `db.Save` checks the closed flag first. -/
theorem dbSave_tooMuchHistory_closed_counterexample :
    dbClose newDb = ({ data := [], isClosed := true }, .ok ()) ∧
    1000000 > maxHistory ∧
    dbSave (fun _ => []) { data := [], isClosed := true } [] 1000000 =
      ({ data := [], isClosed := true }, [], .error .alreadyClosed) ∧
    KvErr.alreadyClosed ≠ KvErr.tooMuchHistory :=
  ⟨rfl, by decide, rfl, by decide⟩

/-- C9 (amended): once `Close` succeeds, `Put`, `Get`, `Delete`, `Keys`,
`KeysAndValues`, `Save`, `Load`, and a second `Close` all fail with
`AlreadyClosed`; `Size`, however, has no closed-check (and no error
channel) in the source and returns 0 on the cleared map. -/
theorem closed_operations_fail (d d' : Db) (h : dbClose d = (d', .ok ())) :
    (∀ k v, dbPut d' k v = (d', .error .alreadyClosed)) ∧
    (∀ k, dbGet d' k = .error .alreadyClosed) ∧
    (∀ k, dbDelete d' k = (d', .error .alreadyClosed)) ∧
    dbKeys d' = .error .alreadyClosed ∧
    dbKeysAndValues d' = .error .alreadyClosed ∧
    (∀ hash dir hist, dbSave hash d' dir hist = (d', dir, .error .alreadyClosed)) ∧
    (∀ hash dir, dbLoad hash d' dir = (d', .error .alreadyClosed)) ∧
    dbClose d' = (d', .error .alreadyClosed) ∧
    dbSize d' = 0 := by
  have hd' : d' = { data := [], isClosed := true } := by
    rw [dbClose] at h
    split at h
    · exact absurd h (by simp)
    · injection h with h1 h2
      exact h1.symm
  subst hd'
  refine ⟨fun k v => rfl, fun k => rfl, fun k => rfl, rfl, rfl,
    fun hash dir hist => rfl, fun hash dir => rfl, rfl, rfl⟩

/-- Witness for C9 (amended): close a fresh store, then operations fail
and `Size` returns 0. -/
theorem closed_operations_fail_witness :
    dbGet { data := [], isClosed := true } [0] = .error .alreadyClosed ∧
    dbSize { data := [], isClosed := true } = 0 :=
  ⟨(closed_operations_fail newDb _ rfl).2.1 [0],
    (closed_operations_fail newDb _ rfl).2.2.2.2.2.2.2.2⟩

/-- Counterexample to C9 as stated: after a successful `Close`, `Size`
does not fail with `AlreadyClosed` - it has no closed-check and no error
return in the source - it returns the value 0. -/
theorem dbSize_after_close_returns_zero :
    dbClose newDb = ({ data := [], isClosed := true }, .ok ()) ∧
    dbSize { data := [], isClosed := true } = 0 :=
  ⟨rfl, rfl⟩

/-- C7: `load` clears the in-memory map as its first step (its result does
not depend on the incoming map); on a directory with no snapshot file it
fails with `SnapshotNotFound` leaving the map empty; and when the stored
digest of the latest snapshot differs from the recomputed digest it fails
with `BadSnapshot` before any frame is decoded, leaving the map empty. -/
theorem load_clears_and_verifies (hash : List Nat → List Nat) (d : Db) (dir : Dir) :
    load hash d dir = load hash { d with data := [] } dir ∧
    ((∀ f ∈ dir, ¬(f.isRegular = true ∧ isSnapshotName f.name = true)) →
      load hash d dir = ({ d with data := [] }, .error .snapshotNotFound)) ∧
    (∀ id stored b, getMaxSnapshotId dir = id → id ≠ 0 →
      readFile dir (generateChecksumName id) = .ok stored →
      readFile dir (generateSnapshotName id) = .ok b →
      stored ≠ hash b →
      load hash d dir = ({ d with data := [] }, .error .badSnapshot)) := by
  refine ⟨rfl, ?_, ?_⟩
  · intro hnone
    rw [load, if_pos (getMaxSnapshotId_zero dir hnone)]
  · intro id stored b hid hne hchk hsnap hdiff
    rw [load, hid, if_neg hne]
    rw [verifySnapshotChecksum, hchk, getSnapshotChecksum, hsnap]
    dsimp only
    rw [if_neg hdiff]

/-- Witness for C7: an empty directory yields `SnapshotNotFound`; a
directory whose checksum file disagrees with the digest of snapshot 1
yields `BadSnapshot` with an empty map. -/
theorem load_clears_and_verifies_witness :
    load (fun _ => [0]) newDb [] = (newDb, .error .snapshotNotFound) ∧
    load (fun _ => [0]) newDb
        [⟨generateSnapshotName 1, [], true⟩, ⟨generateChecksumName 1, [9], true⟩] =
      (newDb, .error .badSnapshot) := by
  constructor
  · exact (load_clears_and_verifies (fun _ => [0]) newDb []).2.1 (by simp)
  · apply (load_clears_and_verifies (fun _ => [0]) newDb _).2.2 1 [9] []
    · rw [getMaxSnapshotId_cons, getMaxSnapshotId_cons]
      rw [show (getMaxSnapshotId [] = 0) from rfl]
      have h1 : isSnapshotName (generateSnapshotName 1) = true := isSnapshotName_generate 1 (by omega)
      have h2 : isSnapshotName (generateChecksumName 1) = false := isSnapshotName_checksumName 1
      simp only [h1, h2, Bool.and_true, Bool.and_false, if_false]
      simp only [if_true, parse_generateSnapshotName]
      simp
    · decide
    · rw [readFile, findFile, List.find?]
      rw [show ((⟨generateSnapshotName 1, [], true⟩ : FsFile).name ==
        generateChecksumName 1) = false from by
          simp only [beq_eq_false_iff_ne, ne_eq]
          exact generateSnapshotName_ne_checksumName 1 1]
      rw [List.find?]
      rw [show ((⟨generateChecksumName 1, [9], true⟩ : FsFile).name ==
        generateChecksumName 1) = true from by simp]
      rfl
    · rw [readFile, findFile, List.find?]
      rw [show ((⟨generateSnapshotName 1, [], true⟩ : FsFile).name ==
        generateSnapshotName 1) = true from by simp]
      rfl
    · decide

/-! Helper facts about directory lookups. -/

lemma findFile_append_of_none (l1 l2 : Dir) (n : List Nat)
    (h : findFile l1 n = none) : findFile (l1 ++ l2) n = findFile l2 n := by
  rw [findFile, List.find?_append]
  rw [findFile] at h
  rw [h, Option.none_or, findFile]

lemma findFile_none_iff (l : Dir) (n : List Nat) :
    findFile l n = none ↔ ∀ f ∈ l, f.name ≠ n := by
  rw [findFile, List.find?_eq_none]
  constructor
  · intro h f hf
    have := h f hf
    simpa using this
  · intro h f hf
    simpa using h f hf

lemma findFile_cons_self (f : FsFile) (l : Dir) :
    findFile (f :: l) f.name = some f := by
  rw [findFile, List.find?_cons_of_pos]
  simp

lemma findFile_cons_of_ne (f : FsFile) (l : Dir) (n : List Nat) (h : f.name ≠ n) :
    findFile (f :: l) n = findFile l n := by
  rw [findFile, List.find?_cons_of_neg, findFile]
  simpa using h

/-! Hex encoding round-trip. -/

lemma hexDigitVal_hexDigitChar (n : Nat) (h : n < 16) :
    hexDigitVal (hexDigitChar n) = some n := by
  rw [hexDigitChar]
  by_cases h10 : n < 10
  · rw [if_pos h10, hexDigitVal, if_pos (by omega)]
    congr 1
    omega
  · rw [if_neg h10, hexDigitVal, if_neg (by omega), if_pos (by omega)]
    congr 1
    omega

lemma hexEncode_cons (b : Nat) (bs : List Nat) :
    hexEncode (b :: bs) =
      hexDigitChar (b / 16) :: hexDigitChar (b % 16) :: hexEncode bs := by
  rw [hexEncode, List.map_cons, List.flatten_cons, hexEncode]
  rfl

lemma hexDecode_hexEncode (bs : List Nat) (h : ∀ b ∈ bs, b < 256) :
    hexDecode (hexEncode bs) = some bs := by
  induction bs with
  | nil => rfl
  | cons b bs ih =>
    have hb : b < 256 := h b (by simp)
    rw [hexEncode_cons, hexDecode]
    rw [hexDigitVal_hexDigitChar (b / 16) (by omega),
      hexDigitVal_hexDigitChar (b % 16) (by omega),
      ih (fun x hx => h x (by simp [hx]))]
    dsimp only
    have : b / 16 * 16 + b % 16 = b := by omega
    rw [this]

lemma hexEncode_injOn (a b : List Nat) (ha : ∀ x ∈ a, x < 256)
    (hb : ∀ x ∈ b, x < 256) (h : hexEncode a = hexEncode b) : a = b := by
  have h1 := hexDecode_hexEncode a ha
  rw [h, hexDecode_hexEncode b hb] at h1
  exact (Option.some.injEq _ _ ▸ h1).symm

/-! Decoding the concatenation of frames produced by serialization. -/

lemma readExact_front (pre rest : List Nat) (l : Nat) (hl : pre.length = l) :
    readExact (pre ++ rest) l = .ok (pre, rest) := by
  rw [readExact, if_pos (by simp [List.length_append, ← hl])]
  rw [List.take_left' hl, List.drop_left' hl]

lemma readNext_packBytes (k v rest : List Nat)
    (h : 8 + k.length + v.length < 2 ^ 32) :
    readNext (packBytes k v ++ rest) = .ok ((k, v), rest) := by
  have hs : packBytes k v ++ rest =
      uint32ToBytes (8 + k.length + v.length) ++ (uint32ToBytes k.length ++
        (k ++ (uint32ToBytes v.length ++ (v ++ rest)))) := by
    simp [packBytes, List.append_assoc]
  rw [hs, readNext]
  rw [readExact_front _ _ 4 (uint32ToBytes_length _)]
  dsimp only
  rw [readExact_front _ _ 4 (uint32ToBytes_length _)]
  dsimp only
  rw [bytesToUint32_uint32ToBytes k.length,
    Nat.mod_eq_of_lt (show k.length < 2 ^ 32 by omega)]
  rw [readExact_front _ _ k.length rfl]
  dsimp only
  rw [readExact_front _ _ 4 (uint32ToBytes_length _)]
  dsimp only
  rw [bytesToUint32_uint32ToBytes v.length,
    Nat.mod_eq_of_lt (show v.length < 2 ^ 32 by omega)]
  rw [readExact_front _ _ v.length rfl]
  dsimp only
  rw [bytesToUint32_uint32ToBytes]
  rw [if_neg (by omega)]

lemma loadLoop_nil (acc : List (List Nat × List Nat)) :
    loadLoop acc [] = (acc, .ok ()) := by
  rw [loadLoop]
  split
  · rfl
  · rename_i e hne heq
    rw [show readNext [] = .error KvErr.eof from rfl] at heq
    cases heq
    exact (hne rfl).elim
  · rename_i kv rest heq
    rw [show readNext [] = .error KvErr.eof from rfl] at heq
    cases heq

lemma loadLoop_frames (entries : List (List Nat × List Nat)) :
    ∀ acc, (∀ p ∈ entries, 8 + p.1.length + p.2.length < 2 ^ 32) →
      loadLoop acc ((entries.map (fun p => packBytes p.1 p.2)).flatten) =
        (entries.foldl (fun m p => mapInsert m (hexEncode p.1) p.2) acc, .ok ()) := by
  induction entries with
  | nil =>
    intro acc _
    simpa using loadLoop_nil acc
  | cons p entries ih =>
    intro acc hlen
    have hp := hlen p (by simp)
    rw [List.map_cons, List.flatten_cons]
    rw [loadLoop]
    split
    · rename_i heq
      rw [readNext_packBytes p.1 p.2 _ hp] at heq
      cases heq
    · rename_i e hne heq
      rw [readNext_packBytes p.1 p.2 _ hp] at heq
      cases heq
    · rename_i kv rest heq
      rw [readNext_packBytes p.1 p.2 _ hp] at heq
      simp only [Except.ok.injEq, Prod.mk.injEq] at heq
      obtain ⟨⟨hk, hv⟩, hrest⟩ := heq
      subst hk
      subst hv
      subst hrest
      rw [ih _ (fun q hq => hlen q (by simp [hq]))]
      rfl

lemma mapInsert_append_of_not_mem (m : List (List Nat × List Nat))
    (k v : List Nat) (h : ∀ p ∈ m, p.1 ≠ k) :
    mapInsert m k v = m ++ [(k, v)] := by
  rw [mapInsert, if_neg]
  simp only [List.any_eq_true, beq_iff_eq, not_exists]
  intro p hp
  exact (h p hp.1) hp.2

lemma foldl_mapInsert_image (entries : List (List Nat × List Nat)) :
    ∀ acc, (entries.map (fun p => hexEncode p.1)).Nodup →
      (∀ p ∈ entries, ∀ q ∈ acc, q.1 ≠ hexEncode p.1) →
      entries.foldl (fun m p => mapInsert m (hexEncode p.1) p.2) acc =
        acc ++ entries.map (fun p => (hexEncode p.1, p.2)) := by
  induction entries with
  | nil =>
    intro acc _ _
    simp
  | cons p entries ih =>
    intro acc hnodup hdisj
    simp only [List.map_cons, List.nodup_cons] at hnodup
    simp only [List.foldl_cons]
    rw [mapInsert_append_of_not_mem acc (hexEncode p.1) p.2
      (fun q hq => hdisj p (by simp) q hq)]
    rw [ih (acc ++ [(hexEncode p.1, p.2)]) hnodup.2 ?_]
    · simp
    · intro q hq r hr
      rcases List.mem_append.mp hr with h | h
      · exact hdisj q (by simp [hq]) r h
      · have hr1 : r = (hexEncode p.1, p.2) := by simpa using h
        subst hr1
        simp only
        intro hcontra
        exact hnodup.1 (hcontra ▸ List.mem_map_of_mem (fun p => hexEncode p.1) hq)

/-! Directories consisting of snapshot/checksum pairs for an identifier
range, the shape produced by sequential saves. -/

lemma generateChecksumName_injective (m n : Nat)
    (h : generateChecksumName m = generateChecksumName n) : m = n := by
  have := parse_generateChecksumName m
  rw [h, parse_generateChecksumName] at this
  omega

lemma pairDir_zero (B C : List Nat) (l : Nat) : pairDir B C l 0 = [] := by
  simp [pairDir]

lemma pairDir_succ (B C : List Nat) (l cnt : Nat) :
    pairDir B C l (cnt + 1) =
      ⟨generateSnapshotName l, B, true⟩ :: ⟨generateChecksumName l, C, true⟩ ::
        pairDir B C (l + 1) cnt := by
  simp [pairDir, List.range'_succ]

lemma pairDir_concat (B C : List Nat) (l cnt : Nat) :
    pairDir B C l (cnt + 1) =
      pairDir B C l cnt ++
        [⟨generateSnapshotName (l + cnt), B, true⟩,
         ⟨generateChecksumName (l + cnt), C, true⟩] := by
  rw [pairDir, pairDir, List.range'_concat]
  simp

lemma pairDir_mem (B C : List Nat) (l cnt : Nat) (f : FsFile)
    (h : f ∈ pairDir B C l cnt) :
    ∃ i, l ≤ i ∧ i < l + cnt ∧
      (f = ⟨generateSnapshotName i, B, true⟩ ∨ f = ⟨generateChecksumName i, C, true⟩) := by
  rw [pairDir] at h
  obtain ⟨sub, hsub, hf⟩ := List.mem_flatten.mp h
  obtain ⟨i, hi, hrfl⟩ := List.mem_map.mp hsub
  subst hrfl
  obtain ⟨hi1, hi2⟩ := List.mem_range'_1.mp hi
  refine ⟨i, hi1, hi2, ?_⟩
  rcases List.mem_cons.mp hf with h1 | h1
  · exact Or.inl h1
  · exact Or.inr (by simpa using h1)

lemma pairDir_findFile_gen_none (B C : List Nat) (l cnt id : Nat)
    (h : id < l ∨ l + cnt ≤ id) :
    findFile (pairDir B C l cnt) (generateSnapshotName id) = none := by
  rw [findFile_none_iff]
  intro f hf
  obtain ⟨i, hi1, hi2, hcase⟩ := pairDir_mem B C l cnt f hf
  rcases hcase with h1 | h1 <;> subst h1
  · intro hc
    have := generateSnapshotName_injective i id hc
    omega
  · intro hc
    exact generateSnapshotName_ne_checksumName id i hc.symm

lemma pairDir_findFile_chk_none (B C : List Nat) (l cnt id : Nat)
    (h : id < l ∨ l + cnt ≤ id) :
    findFile (pairDir B C l cnt) (generateChecksumName id) = none := by
  rw [findFile_none_iff]
  intro f hf
  obtain ⟨i, hi1, hi2, hcase⟩ := pairDir_mem B C l cnt f hf
  rcases hcase with h1 | h1 <;> subst h1
  · intro hc
    exact generateSnapshotName_ne_checksumName i id hc
  · intro hc
    have := generateChecksumName_injective i id hc
    omega

lemma pairDir_findFile_gen (B C : List Nat) (cnt : Nat) :
    ∀ l id, l ≤ id → id < l + cnt →
      findFile (pairDir B C l cnt) (generateSnapshotName id) =
        some ⟨generateSnapshotName id, B, true⟩ := by
  induction cnt with
  | zero => intro l id h1 h2; omega
  | succ cnt ih =>
    intro l id h1 h2
    rw [pairDir_succ]
    by_cases hid : id = l
    · subst hid
      exact findFile_cons_self _ _
    · rw [findFile_cons_of_ne _ _ _ (by
        simp only
        intro hc
        exact hid (generateSnapshotName_injective l id hc).symm)]
      rw [findFile_cons_of_ne _ _ _ (by
        simp only
        intro hc
        exact generateSnapshotName_ne_checksumName id l hc.symm)]
      exact ih (l + 1) id (by omega) (by omega)

lemma pairDir_findFile_chk (B C : List Nat) (cnt : Nat) :
    ∀ l id, l ≤ id → id < l + cnt →
      findFile (pairDir B C l cnt) (generateChecksumName id) =
        some ⟨generateChecksumName id, C, true⟩ := by
  induction cnt with
  | zero => intro l id h1 h2; omega
  | succ cnt ih =>
    intro l id h1 h2
    rw [pairDir_succ]
    rw [findFile_cons_of_ne _ _ _ (by
      simp only
      intro hc
      exact generateSnapshotName_ne_checksumName l id hc)]
    by_cases hid : id = l
    · subst hid
      exact findFile_cons_self _ _
    · rw [findFile_cons_of_ne _ _ _ (by
        simp only
        intro hc
        exact hid (generateChecksumName_injective l id hc).symm)]
      exact ih (l + 1) id (by omega) (by omega)

lemma pairDir_maxId (B C : List Nat) (cnt : Nat) :
    ∀ l, 0 < cnt → l + cnt - 1 ≤ 999999 →
      getMaxSnapshotId (pairDir B C l cnt) = l + cnt - 1 := by
  induction cnt with
  | zero => intro l h; omega
  | succ cnt ih =>
    intro l _ hle
    rw [pairDir_succ, getMaxSnapshotId_cons, getMaxSnapshotId_cons]
    have hsn : isSnapshotName (generateSnapshotName l) = true :=
      isSnapshotName_generate l (by omega)
    have hcn : isSnapshotName (generateChecksumName l) = false :=
      isSnapshotName_checksumName l
    simp only [hsn, hcn, Bool.and_true, Bool.and_false, Bool.true_and,
      Bool.false_eq_true, if_true, if_false, parse_generateSnapshotName]
    rcases Nat.eq_zero_or_pos cnt with h0 | hpos
    · subst h0
      rw [pairDir_zero]
      rw [show getMaxSnapshotId [] = 0 from rfl]
      omega
    · rw [ih (l + 1) hpos (by omega)]
      omega

lemma take_range' (l cnt m : Nat) (h : m ≤ cnt) :
    (List.range' l cnt).take m = List.range' l m := by
  have hsplit : List.range' l cnt = List.range' l m ++ List.range' (l + m) (cnt - m) := by
    rw [List.range'_append_1]
    congr 1
    omega
  rw [hsplit, List.take_left' (by simp [List.length_range'])]

lemma pairDir_ids (B C : List Nat) (cnt : Nat) :
    ∀ l, l + cnt ≤ 1000000 →
      getAllSnapshotIds (pairDir B C l cnt) = List.range' l cnt := by
  have hfil : ∀ cnt l, l + cnt ≤ 1000000 →
      ((pairDir B C l cnt).filter
        (fun f => f.isRegular && isSnapshotName f.name)).map
          (fun f => parseSnapshotName f.name) = List.range' l cnt := by
    intro cnt
    induction cnt with
    | zero => intro l _; simp [pairDir_zero]
    | succ cnt ih =>
      intro l hle
      rw [pairDir_succ, List.filter_cons, List.filter_cons]
      have hsn : isSnapshotName (generateSnapshotName l) = true :=
        isSnapshotName_generate l (by omega)
      have hcn : isSnapshotName (generateChecksumName l) = false :=
        isSnapshotName_checksumName l
      simp only [hsn, hcn, Bool.and_true, Bool.and_false, Bool.true_and,
        Bool.false_eq_true, if_true, if_false]
      rw [List.map_cons, parse_generateSnapshotName, ih (l + 1) (by omega),
        List.range'_succ]
  intro l hle
  rw [getAllSnapshotIds, hfil cnt l hle]
  apply List.Sorted.insertionSort_eq
  exact (List.pairwise_lt_range' l cnt).imp (fun h => Nat.le_of_lt h)

lemma pairDir_removePairs (B C : List Nat) (m : Nat) :
    ∀ l cnt, m ≤ cnt →
      removePairs (pairDir B C l cnt) (List.range' l m) =
        (pairDir B C (l + m) (cnt - m), .ok ()) := by
  induction m with
  | zero =>
    intro l cnt _
    rw [show List.range' l 0 = [] from rfl, removePairs]
    simp
  | succ m ih =>
    intro l cnt hm
    obtain ⟨cnt', rfl⟩ : ∃ cnt', cnt = cnt' + 1 := ⟨cnt - 1, by omega⟩
    rw [List.range'_succ, removePairs]
    rw [pairDir_succ]
    rw [removeFile, findFile_cons_self]
    dsimp only
    have hfil1 : (⟨generateSnapshotName l, B, true⟩ ::
        ⟨generateChecksumName l, C, true⟩ :: pairDir B C (l + 1) cnt').filter
          (fun f => !(f.name == generateSnapshotName l)) =
        ⟨generateChecksumName l, C, true⟩ :: pairDir B C (l + 1) cnt' := by
      rw [List.filter_cons, List.filter_cons]
      simp only [beq_self_eq_true, Bool.not_true, Bool.false_eq_true, if_false]
      rw [show ((generateChecksumName l == generateSnapshotName l) = false) from by
        simp only [beq_eq_false_iff_ne, ne_eq]
        intro hc
        exact generateSnapshotName_ne_checksumName l l hc.symm]
      simp only [Bool.not_false, if_true]
      congr 1
      apply List.filter_eq_self.mpr
      intro f hf
      obtain ⟨i, hi1, hi2, hcase⟩ := pairDir_mem B C (l + 1) cnt' f hf
      rcases hcase with h1 | h1 <;> subst h1
      · simp only [Bool.not_eq_true', beq_eq_false_iff_ne, ne_eq]
        intro hc
        have := generateSnapshotName_injective i l hc
        omega
      · simp only [Bool.not_eq_true', beq_eq_false_iff_ne, ne_eq]
        intro hc
        exact generateSnapshotName_ne_checksumName l i hc.symm
    rw [hfil1]
    rw [removeFile, findFile_cons_self]
    dsimp only
    have hfil2 : (⟨generateChecksumName l, C, true⟩ :: pairDir B C (l + 1) cnt').filter
        (fun f => !(f.name == generateChecksumName l)) = pairDir B C (l + 1) cnt' := by
      rw [List.filter_cons]
      simp only [beq_self_eq_true, Bool.not_true, Bool.false_eq_true, if_false]
      apply List.filter_eq_self.mpr
      intro f hf
      obtain ⟨i, hi1, hi2, hcase⟩ := pairDir_mem B C (l + 1) cnt' f hf
      rcases hcase with h1 | h1 <;> subst h1
      · simp only [Bool.not_eq_true', beq_eq_false_iff_ne, ne_eq]
        intro hc
        exact generateSnapshotName_ne_checksumName i l hc
      · simp only [Bool.not_eq_true', beq_eq_false_iff_ne, ne_eq]
        intro hc
        have := generateChecksumName_injective i l hc
        omega
    rw [hfil2]
    rw [ih (l + 1) cnt' (by omega)]
    have h1 : l + 1 + m = l + (m + 1) := by omega
    have h2 : cnt' - m = cnt' + 1 - (m + 1) := by omega
    rw [h1, h2]

lemma cleanup_pairDir (B C : List Nat) (l cnt hist : Nat) (hle : l + cnt ≤ 1000000) :
    cleanupSnapshotsUpTo (pairDir B C l cnt) hist =
      if cnt ≤ hist + 1 then (pairDir B C l cnt, .ok ())
      else (pairDir B C (l + (cnt - (hist + 1))) (hist + 1), .ok ()) := by
  rw [cleanupSnapshotsUpTo, pairDir_ids B C cnt l hle]
  simp only [List.length_range']
  by_cases hc : cnt ≤ hist + 1
  · rw [if_pos hc, if_pos hc]
  · rw [if_neg hc, if_neg hc]
    rw [take_range' l cnt (cnt - (hist + 1)) (by omega)]
    rw [pairDir_removePairs B C (cnt - (hist + 1)) l cnt (by omega)]
    congr 2
    omega

/-! A single `save` into a directory that does not yet contain the new
identifier's files. -/

lemma overlayWrite_fresh (dir : Dir) (n w : List Nat)
    (h : findFile dir n = none) :
    overlayWrite dir n w = .ok (dir ++ [⟨n, w, true⟩]) := by
  rw [overlayWrite, h]

lemma writeFile_fresh (dir : Dir) (n c : List Nat)
    (h : findFile dir n = none) :
    writeFile dir n c = .ok (dir ++ [⟨n, c, true⟩]) := by
  rw [writeFile, h]

lemma readFile_of_find (dir : Dir) (n : List Nat) (f : FsFile)
    (h : findFile dir n = some f) (hreg : f.isRegular = true) :
    readFile dir n = .ok f.content := by
  rw [readFile, h]
  dsimp only
  rw [if_pos hreg]

lemma save_fresh_ok (hash : List Nat → List Nat) (d : Db) (dir dir3 : Dir)
    (hist : Nat) (B : List Nat) (id : Nat)
    (henc : encodeEntries d.data = (B, .ok ()))
    (hid : id = getMaxSnapshotId dir + 1)
    (hsnap : findFile dir (generateSnapshotName id) = none)
    (hchk : findFile dir (generateChecksumName id) = none)
    (hclean : cleanupSnapshotsUpTo
      (dir ++ [⟨generateSnapshotName id, B, true⟩,
        ⟨generateChecksumName id, hash B, true⟩]) hist = (dir3, .ok ())) :
    save hash d dir hist = (d, dir3, .ok id) := by
  subst hid
  rw [save]
  try dsimp only
  rw [henc]
  try dsimp only
  rw [overlayWrite_fresh dir _ B hsnap]
  try dsimp only
  rw [writeSnapshotChecksum, getSnapshotChecksum]
  rw [readFile, findFile_append_of_none dir _ _ hsnap, findFile_cons_self]
  try dsimp only
  rw [if_pos (rfl : (true : Bool) = true)]
  try dsimp only
  rw [writeFile, findFile_append_of_none dir _ _ hchk]
  rw [findFile_cons_of_ne _ _ _ (by
    simp only
    exact generateSnapshotName_ne_checksumName _ _)]
  rw [show findFile [] (generateChecksumName (getMaxSnapshotId dir + 1)) = none from rfl]
  try dsimp only
  rw [List.append_assoc]
  simp only [List.singleton_append]
  rw [hclean]

/-! Sequential runs of `save`. -/

lemma saveRun_zero (hash : List Nat → List Nat) (d : Db) (hist : Nat) (dir : Dir) :
    saveRun hash d hist 0 dir = .ok ([], dir) := rfl

lemma saveRun_add (hash : List Nat → List Nat) (d : Db) (hist m n : Nat) :
    ∀ dir, saveRun hash d hist (m + n) dir =
      match saveRun hash d hist m dir with
      | .ok (ids, dir1) =>
        match saveRun hash d hist n dir1 with
        | .ok (ids2, dir2) => .ok (ids ++ ids2, dir2)
        | .error e => .error e
      | .error e => .error e := by
  induction m with
  | zero =>
    intro dir
    rw [Nat.zero_add, saveRun_zero]
    dsimp only
    cases h : saveRun hash d hist n dir with
    | ok p =>
      obtain ⟨a, b⟩ := p
      dsimp only
      rw [List.nil_append]
    | error e =>
      rfl
  | succ m ih =>
    intro dir
    have hidx : m + 1 + n = (m + n) + 1 := by omega
    rw [hidx]
    rw [saveRun]
    cases hs : save hash d dir hist with
    | mk d' rest =>
      cases rest with
      | mk dir1 r =>
        cases r with
        | error e =>
          rw [show saveRun hash d hist (m + 1) dir =
            match save hash d dir hist with
            | (_, dir1, .ok id) =>
              match saveRun hash d hist m dir1 with
              | .ok (ids, dirF) => .ok (id :: ids, dirF)
              | .error e => .error e
            | (_, _, .error e) => .error e from rfl]
          rw [hs]
        | ok id =>
          rw [show saveRun hash d hist (m + 1) dir =
            match save hash d dir hist with
            | (_, dir1, .ok id) =>
              match saveRun hash d hist m dir1 with
              | .ok (ids, dirF) => .ok (id :: ids, dirF)
              | .error e => .error e
            | (_, _, .error e) => .error e from rfl]
          rw [hs]
          dsimp only
          rw [ih dir1]
          cases h1 : saveRun hash d hist m dir1 with
          | error e => rfl
          | ok p =>
            obtain ⟨ids, dirm⟩ := p
            dsimp only
            cases h2 : saveRun hash d hist n dirm with
            | error e => rfl
            | ok q =>
              obtain ⟨ids2, dir2⟩ := q
              rfl

lemma pairDir_length (B C : List Nat) (cnt : Nat) :
    ∀ l, (pairDir B C l cnt).length = 2 * cnt := by
  induction cnt with
  | zero => intro l; simp [pairDir_zero]
  | succ cnt ih =>
    intro l
    rw [pairDir_succ]
    simp only [List.length_cons, ih (l + 1)]
    omega

lemma saveRun_one_of_save_ok (hash : List Nat → List Nat) (d : Db) (hist : Nat)
    (dir dir1 : Dir) (id : Nat)
    (hsave : save hash d dir hist = (d, dir1, .ok id)) :
    saveRun hash d hist 1 dir = .ok ([id], dir1) := by
  rw [saveRun, hsave]
  dsimp only
  rw [saveRun_zero]

lemma saveRun_invariant (hash : List Nat → List Nat) (d : Db) (hist : Nat)
    (B : List Nat) (henc : encodeEntries d.data = (B, .ok ())) :
    ∀ k, 1 ≤ k → k ≤ 999999 →
      saveRun hash d hist k [] =
        .ok (List.range' 1 k,
          pairDir B (hash B) (k + 1 - min k (hist + 1)) (min k (hist + 1))) := by
  intro k
  induction k with
  | zero => omega
  | succ k ih =>
    intro _ hle
    rcases Nat.eq_zero_or_pos k with h0 | hpos
    · subst h0
      have h11 : pairDir B (hash B) 1 1 =
          [⟨generateSnapshotName 1, B, true⟩, ⟨generateChecksumName 1, hash B, true⟩] := by
        rw [pairDir_succ, pairDir_zero]
      have hclean : cleanupSnapshotsUpTo
          ([] ++ [⟨generateSnapshotName 1, B, true⟩,
            ⟨generateChecksumName 1, hash B, true⟩]) hist =
          (pairDir B (hash B) 1 1, .ok ()) := by
        rw [List.nil_append, ← h11, cleanup_pairDir B (hash B) 1 1 hist (by omega),
          if_pos (by omega)]
      have hstep := save_fresh_ok hash d [] (pairDir B (hash B) 1 1) hist B 1 henc
        (by rfl) (by rfl) (by rfl) hclean
      rw [saveRun_one_of_save_ok hash d hist [] _ 1 hstep]
      have hmin : min (0 + 1) (hist + 1) = 1 := by omega
      rw [hmin]
      rfl
    · have hmn1 : 1 ≤ min k (hist + 1) := by omega
      have hmnk : min k (hist + 1) ≤ k := Nat.min_le_left _ _
      set mn := min k (hist + 1) with hmn
      set l := k + 1 - mn with hl
      have hlcnt : l + mn = k + 1 := by omega
      have hmax : getMaxSnapshotId (pairDir B (hash B) l mn) = k := by
        rw [pairDir_maxId B (hash B) mn l hmn1 (by omega)]
        omega
      have hsnap : findFile (pairDir B (hash B) l mn) (generateSnapshotName (k + 1)) = none :=
        pairDir_findFile_gen_none B (hash B) l mn (k + 1) (by omega)
      have hchk : findFile (pairDir B (hash B) l mn) (generateChecksumName (k + 1)) = none :=
        pairDir_findFile_chk_none B (hash B) l mn (k + 1) (by omega)
      have hcat : pairDir B (hash B) l mn ++
          [⟨generateSnapshotName (k + 1), B, true⟩,
            ⟨generateChecksumName (k + 1), hash B, true⟩] =
          pairDir B (hash B) l (mn + 1) := by
        rw [pairDir_concat]
        have : l + mn = k + 1 := hlcnt
        rw [this]
      have hclean : cleanupSnapshotsUpTo
          (pairDir B (hash B) l mn ++
            [⟨generateSnapshotName (k + 1), B, true⟩,
              ⟨generateChecksumName (k + 1), hash B, true⟩]) hist =
          (pairDir B (hash B) (k + 2 - min (k + 1) (hist + 1)) (min (k + 1) (hist + 1)),
            .ok ()) := by
        rw [hcat, cleanup_pairDir B (hash B) l (mn + 1) hist (by omega)]
        by_cases hcase : mn + 1 ≤ hist + 1
        · rw [if_pos hcase]
          have hkh : k < hist + 1 := by omega
          have hmneq : mn = k := by omega
          have h1 : min (k + 1) (hist + 1) = k + 1 := by omega
          rw [h1, hmneq]
          have : l = 1 := by omega
          rw [this]
          have : k + 2 - (k + 1) = 1 := by omega
          rw [this]
        · rw [if_neg hcase]
          have h1 : min (k + 1) (hist + 1) = hist + 1 := by omega
          rw [h1]
          have h2 : mn + 1 - (hist + 1) = 1 := by omega
          rw [h2]
          have h3 : l + 1 = k + 2 - (hist + 1) := by omega
          rw [h3]
      have hstep := save_fresh_ok hash d (pairDir B (hash B) l mn) _ hist B (k + 1) henc
        (by rw [hmax]) hsnap hchk hclean
      have hcomp := saveRun_add hash d hist k 1 []
      rw [hcomp, ih (by omega) (by omega)]
      dsimp only
      rw [saveRun_one_of_save_ok hash d hist _ _ (k + 1) hstep]
      dsimp only
      rw [show List.range' 1 k ++ [k + 1] = List.range' 1 (k + 1) from by
        rw [List.range'_concat]
        simp [Nat.add_comm]]

/-- C4 (amended): the identifier used by `save` is always
`getMaxSnapshotId dir + 1` (0 when no snapshot is discovered); and for `N`
sequential successful saves into an initially empty directory with
`N ≤ 999999`, the identifiers produced are exactly `1..N` in order, with
no reuse and no gaps (beyond 999999 the 6-digit name scheme stops being
discoverable and identifiers are reused). -/
theorem save_id_monotonic :
    (∀ (hash : List Nat → List Nat) (d d2 : Db) (dir dir2 : Dir) (hist i : Nat),
      save hash d dir hist = (d2, dir2, .ok i) → i = getMaxSnapshotId dir + 1) ∧
    (∀ (hash : List Nat → List Nat) (d : Db) (hist : Nat) (B : List Nat),
      encodeEntries d.data = (B, .ok ()) → ∀ N, 1 ≤ N → N ≤ 999999 →
      saveRun hash d hist N [] =
        .ok (List.range' 1 N,
          pairDir B (hash B) (N + 1 - min N (hist + 1)) (min N (hist + 1)))) := by
  constructor
  · intro hash d d2 dir dir2 hist i hsave
    rw [save] at hsave
    repeat' split at hsave
    all_goals simp_all
  · intro hash d hist B henc N h1 h2
    exact saveRun_invariant hash d hist B henc N h1 h2

/-- Witness for C4 (amended): a concrete first save uses identifier
`0 + 1 = 1`, and two sequential saves from an empty directory with history
depth 0 produce identifiers `[1, 2]`. -/
theorem save_id_monotonic_witness :
    1 = getMaxSnapshotId [] + 1 ∧
    saveRun (fun _ => []) newDb 0 2 [] =
      .ok (List.range' 1 2, pairDir [] [] (2 + 1 - min 2 (0 + 1)) (min 2 (0 + 1))) := by
  constructor
  · have h11 : pairDir [] [] 1 1 =
        [⟨generateSnapshotName 1, [], true⟩, ⟨generateChecksumName 1, [], true⟩] := by
      rw [pairDir_succ, pairDir_zero]
    have hclean : cleanupSnapshotsUpTo
        ([] ++ [⟨generateSnapshotName 1, [], true⟩,
          ⟨generateChecksumName 1, [], true⟩]) 0 = (pairDir [] [] 1 1, .ok ()) := by
      rw [List.nil_append, ← h11, cleanup_pairDir [] [] 1 1 0 (by omega),
        if_pos (by omega)]
    have hstep := save_fresh_ok (fun _ => []) newDb [] (pairDir [] [] 1 1) 0 [] 1
      rfl rfl rfl rfl hclean
    exact save_id_monotonic.1 (fun _ => []) newDb newDb [] _ 0 1 hstep
  · exact save_id_monotonic.2 (fun _ => []) newDb 0 [] rfl 2 (by omega) (by omega)

/-! Behaviour at the 999999 identifier ceiling: snapshot 1000000 gets a
7-digit name that discovery never sees. -/

lemma map_eq_self_of {α : Type} (l : List α) (f : α → α) (h : ∀ x ∈ l, f x = x) :
    l.map f = l := by
  induction l with
  | nil => rfl
  | cons x l ih =>
    rw [List.map_cons, h x (by simp), ih (fun y hy => h y (by simp [hy]))]

lemma pairDir_filter_map (B C : List Nat) (cnt : Nat) :
    ∀ l, l + cnt ≤ 1000000 →
      ((pairDir B C l cnt).filter
        (fun f => f.isRegular && isSnapshotName f.name)).map
          (fun f => parseSnapshotName f.name) = List.range' l cnt := by
  induction cnt with
  | zero => intro l _; simp [pairDir_zero]
  | succ cnt ih =>
    intro l hle
    rw [pairDir_succ, List.filter_cons, List.filter_cons]
    have hsn : isSnapshotName (generateSnapshotName l) = true :=
      isSnapshotName_generate l (by omega)
    have hcn : isSnapshotName (generateChecksumName l) = false :=
      isSnapshotName_checksumName l
    simp only [hsn, hcn, Bool.and_true, Bool.and_false, Bool.true_and,
      Bool.false_eq_true, if_true, if_false]
    rw [List.map_cons, parse_generateSnapshotName, ih (l + 1) (by omega),
      List.range'_succ]

lemma overflowDir_ids :
    getAllSnapshotIds (pairDir [] [] 999999 1 ++
      [⟨generateSnapshotName 1000000, [], true⟩,
       ⟨generateChecksumName 1000000, [], true⟩]) = [999999] := by
  rw [getAllSnapshotIds, List.filter_append, List.map_append]
  rw [pairDir_filter_map [] [] 1 999999 (by omega)]
  rw [List.filter_cons, List.filter_cons]
  simp only [isSnapshotName_generate_big 1000000 (by omega),
    isSnapshotName_checksumName, Bool.and_true, Bool.and_false, Bool.true_and,
    Bool.false_eq_true, if_false]
  rw [List.filter_nil, List.map_nil, List.append_nil]
  rfl

lemma overflowDir_cleanup :
    cleanupSnapshotsUpTo (pairDir [] [] 999999 1 ++
      [⟨generateSnapshotName 1000000, [], true⟩,
       ⟨generateChecksumName 1000000, [], true⟩]) 0 =
      (pairDir [] [] 999999 1 ++
        [⟨generateSnapshotName 1000000, [], true⟩,
         ⟨generateChecksumName 1000000, [], true⟩], .ok ()) := by
  rw [cleanupSnapshotsUpTo, overflowDir_ids]
  rfl

lemma overflow_save_first :
    save (fun _ => []) newDb (pairDir [] [] 999999 1) 0 =
      (newDb, pairDir [] [] 999999 1 ++
        [⟨generateSnapshotName 1000000, [], true⟩,
         ⟨generateChecksumName 1000000, [], true⟩], .ok 1000000) := by
  have hmax : getMaxSnapshotId (pairDir [] [] 999999 1) = 999999 := by
    rw [pairDir_maxId [] [] 1 999999 (by omega) (by omega)]
  exact save_fresh_ok (fun _ => []) newDb (pairDir [] [] 999999 1) _ 0 [] 1000000
    rfl (by rw [hmax]) (pairDir_findFile_gen_none [] [] 999999 1 1000000 (by omega))
    (pairDir_findFile_chk_none [] [] 999999 1 1000000 (by omega))
    overflowDir_cleanup

lemma overflowDir_maxId :
    getMaxSnapshotId (pairDir [] [] 999999 1 ++
      [⟨generateSnapshotName 1000000, [], true⟩,
       ⟨generateChecksumName 1000000, [], true⟩]) = 999999 := by
  rw [getMaxSnapshotId_append, pairDir_maxId [] [] 1 999999 (by omega) (by omega)]
  rw [getMaxSnapshotId_cons, getMaxSnapshotId_cons]
  simp only [isSnapshotName_generate_big 1000000 (by omega),
    isSnapshotName_checksumName, Bool.and_true, Bool.and_false, Bool.true_and,
    Bool.false_eq_true, if_false]
  rw [show getMaxSnapshotId [] = 0 from rfl]
  omega

lemma overflowDir_findFile_gen :
    findFile (pairDir [] [] 999999 1 ++
      [⟨generateSnapshotName 1000000, [], true⟩,
       ⟨generateChecksumName 1000000, [], true⟩]) (generateSnapshotName 1000000) =
      some ⟨generateSnapshotName 1000000, [], true⟩ := by
  rw [findFile_append_of_none _ _ _
    (pairDir_findFile_gen_none [] [] 999999 1 1000000 (by omega))]
  exact findFile_cons_self _ _

lemma overflowDir_findFile_chk :
    findFile (pairDir [] [] 999999 1 ++
      [⟨generateSnapshotName 1000000, [], true⟩,
       ⟨generateChecksumName 1000000, [], true⟩]) (generateChecksumName 1000000) =
      some ⟨generateChecksumName 1000000, [], true⟩ := by
  rw [findFile_append_of_none _ _ _
    (pairDir_findFile_chk_none [] [] 999999 1 1000000 (by omega))]
  rw [findFile_cons_of_ne _ _ _ (by
    simp only
    exact generateSnapshotName_ne_checksumName 1000000 1000000)]
  exact findFile_cons_self _ _

lemma save_overlay_ok (hash : List Nat → List Nat) (d : Db) (dir dir3 : Dir)
    (hist : Nat) (B : List Nat) (id : Nat) (f1 f2 : FsFile)
    (henc : encodeEntries d.data = (B, .ok ()))
    (hid : id = getMaxSnapshotId dir + 1)
    (hfind1 : findFile dir (generateSnapshotName id) = some f1)
    (hreg1 : f1.isRegular = true)
    (hcont1 : f1.content = B)
    (hmap1 : dir.map (fun g => if g.name == generateSnapshotName id then
      { g with content := B ++ g.content.drop B.length } else g) = dir)
    (hfind2 : findFile dir (generateChecksumName id) = some f2)
    (hreg2 : f2.isRegular = true)
    (hmap2 : dir.map (fun g => if g.name == generateChecksumName id then
      { g with content := hash B } else g) = dir)
    (hclean : cleanupSnapshotsUpTo dir hist = (dir3, .ok ())) :
    save hash d dir hist = (d, dir3, .ok id) := by
  subst hid
  rw [save]
  try dsimp only
  rw [henc]
  try dsimp only
  rw [overlayWrite, hfind1]
  try dsimp only
  rw [if_pos hreg1, hmap1]
  try dsimp only
  rw [writeSnapshotChecksum, getSnapshotChecksum, readFile, hfind1]
  try dsimp only
  rw [if_pos hreg1, hcont1]
  try dsimp only
  rw [writeFile, hfind2]
  try dsimp only
  rw [if_pos hreg2, hmap2]
  try dsimp only
  rw [hclean]

lemma overflowDir_memcases (x : FsFile)
    (hx : x ∈ pairDir [] [] 999999 1 ++
      [⟨generateSnapshotName 1000000, [], true⟩,
       ⟨generateChecksumName 1000000, [], true⟩]) :
    x = (⟨generateSnapshotName 999999, [], true⟩ : FsFile) ∨
    x = (⟨generateChecksumName 999999, [], true⟩ : FsFile) ∨
    x = (⟨generateSnapshotName 1000000, [], true⟩ : FsFile) ∨
    x = (⟨generateChecksumName 1000000, [], true⟩ : FsFile) := by
  rcases List.mem_append.mp hx with h | h
  · obtain ⟨i, hi1, hi2, hcase⟩ := pairDir_mem [] [] 999999 1 x h
    have : i = 999999 := by omega
    subst this
    rcases hcase with h1 | h1
    · exact Or.inl h1
    · exact Or.inr (Or.inl h1)
  · rcases List.mem_cons.mp h with h1 | h1
    · exact Or.inr (Or.inr (Or.inl h1))
    · exact Or.inr (Or.inr (Or.inr (by simpa using h1)))

lemma overflowDir_map1 :
    ((pairDir [] [] 999999 1 ++
      [(⟨generateSnapshotName 1000000, [], true⟩ : FsFile),
       (⟨generateChecksumName 1000000, [], true⟩ : FsFile)] : Dir)).map
        (fun g => if g.name == generateSnapshotName 1000000 then
          { g with content := ([] : List Nat) ++ g.content.drop ([] : List Nat).length }
          else g) =
      pairDir [] [] 999999 1 ++
        [(⟨generateSnapshotName 1000000, [], true⟩ : FsFile),
         (⟨generateChecksumName 1000000, [], true⟩ : FsFile)] := by
  apply map_eq_self_of
  intro x hx
  rcases overflowDir_memcases x hx with h1 | h1 | h1 | h1 <;> subst h1
  · rw [show ((⟨generateSnapshotName 999999, [], true⟩ : FsFile).name ==
      generateSnapshotName 1000000) = false from by
        simp only [beq_eq_false_iff_ne, ne_eq]
        intro hc
        have := generateSnapshotName_injective 999999 1000000 hc
        omega]
    rw [if_neg (by simp)]
  · rw [show ((⟨generateChecksumName 999999, [], true⟩ : FsFile).name ==
      generateSnapshotName 1000000) = false from by
        simp only [beq_eq_false_iff_ne, ne_eq]
        intro hc
        exact generateSnapshotName_ne_checksumName 1000000 999999 hc.symm]
    rw [if_neg (by simp)]
  · rw [show ((⟨generateSnapshotName 1000000, [], true⟩ : FsFile).name ==
      generateSnapshotName 1000000) = true from by simp]
    rw [if_pos rfl]
    rfl
  · rw [show ((⟨generateChecksumName 1000000, [], true⟩ : FsFile).name ==
      generateSnapshotName 1000000) = false from by
        simp only [beq_eq_false_iff_ne, ne_eq]
        intro hc
        exact generateSnapshotName_ne_checksumName 1000000 1000000 hc.symm]
    rw [if_neg (by simp)]

lemma overflowDir_map2 :
    ((pairDir [] [] 999999 1 ++
      [(⟨generateSnapshotName 1000000, [], true⟩ : FsFile),
       (⟨generateChecksumName 1000000, [], true⟩ : FsFile)] : Dir)).map
        (fun g => if g.name == generateChecksumName 1000000 then
          { g with content := ([] : List Nat) } else g) =
      pairDir [] [] 999999 1 ++
        [(⟨generateSnapshotName 1000000, [], true⟩ : FsFile),
         (⟨generateChecksumName 1000000, [], true⟩ : FsFile)] := by
  apply map_eq_self_of
  intro x hx
  rcases overflowDir_memcases x hx with h1 | h1 | h1 | h1 <;> subst h1
  · rw [show ((⟨generateSnapshotName 999999, [], true⟩ : FsFile).name ==
      generateChecksumName 1000000) = false from by
        simp only [beq_eq_false_iff_ne, ne_eq]
        exact generateSnapshotName_ne_checksumName 999999 1000000]
    rw [if_neg (by simp)]
  · rw [show ((⟨generateChecksumName 999999, [], true⟩ : FsFile).name ==
      generateChecksumName 1000000) = false from by
        simp only [beq_eq_false_iff_ne, ne_eq]
        intro hc
        have := generateChecksumName_injective 999999 1000000 hc
        omega]
    rw [if_neg (by simp)]
  · rw [show ((⟨generateSnapshotName 1000000, [], true⟩ : FsFile).name ==
      generateChecksumName 1000000) = false from by
        simp only [beq_eq_false_iff_ne, ne_eq]
        exact generateSnapshotName_ne_checksumName 1000000 1000000]
    rw [if_neg (by simp)]
  · rw [show ((⟨generateChecksumName 1000000, [], true⟩ : FsFile).name ==
      generateChecksumName 1000000) = true from by simp]
    rw [if_pos rfl]

lemma overflow_save_second :
    save (fun _ => []) newDb
      (pairDir [] [] 999999 1 ++
        [⟨generateSnapshotName 1000000, [], true⟩,
         ⟨generateChecksumName 1000000, [], true⟩]) 0 =
      (newDb, pairDir [] [] 999999 1 ++
        [⟨generateSnapshotName 1000000, [], true⟩,
         ⟨generateChecksumName 1000000, [], true⟩], .ok 1000000) :=
  save_overlay_ok (fun _ => []) newDb _ _ 0 [] 1000000
    ⟨generateSnapshotName 1000000, [], true⟩ ⟨generateChecksumName 1000000, [], true⟩
    rfl (by rw [overflowDir_maxId]) overflowDir_findFile_gen rfl rfl
    overflowDir_map1 overflowDir_findFile_chk rfl overflowDir_map2
    overflowDir_cleanup

lemma saveRun_split (hash : List Nat → List Nat) (d : Db) (hist m n : Nat)
    (dir dir1 dir2 : Dir) (ids1 ids2 : List Nat)
    (h1 : saveRun hash d hist m dir = .ok (ids1, dir1))
    (h2 : saveRun hash d hist n dir1 = .ok (ids2, dir2)) :
    saveRun hash d hist (m + n) dir = .ok (ids1 ++ ids2, dir2) := by
  rw [saveRun_add hash d hist m n dir, h1]
  dsimp only
  rw [h2]

lemma saveRun_two_of_saves (hash : List Nat → List Nat) (d : Db) (hist : Nat)
    (dir dir1 dir2 : Dir) (id1 id2 : Nat)
    (h1 : save hash d dir hist = (d, dir1, .ok id1))
    (h2 : save hash d dir1 hist = (d, dir2, .ok id2)) :
    saveRun hash d hist 2 dir = .ok ([id1, id2], dir2) := by
  show saveRun hash d hist (1 + 1) dir = _
  rw [saveRun, h1]
  dsimp only
  rw [saveRun_one_of_save_ok hash d hist dir1 dir2 id2 h2]

lemma saveRun_overflow :
    saveRun (fun _ => []) newDb 0 1000001 [] =
      .ok (List.range' 1 999999 ++ [1000000, 1000000],
        pairDir [] [] 999999 1 ++
          [⟨generateSnapshotName 1000000, [], true⟩,
           ⟨generateChecksumName 1000000, [], true⟩]) := by
  have hinv2 : saveRun (fun _ => ([] : List Nat)) newDb 0 999999 [] =
      .ok (List.range' 1 999999, pairDir [] [] 999999 1) :=
    saveRun_invariant (fun _ => []) newDb 0 [] rfl 999999 (by omega) (by omega)
  have h2 : saveRun (fun _ => ([] : List Nat)) newDb 0 2 (pairDir [] [] 999999 1) =
      .ok ([1000000, 1000000],
        pairDir [] [] 999999 1 ++
          [⟨generateSnapshotName 1000000, [], true⟩,
           ⟨generateChecksumName 1000000, [], true⟩]) :=
    saveRun_two_of_saves (fun _ => []) newDb 0 _ _ _ 1000000 1000000
      overflow_save_first overflow_save_second
  show saveRun (fun _ => ([] : List Nat)) newDb 0 (999999 + 2) [] = _
  exact saveRun_split (fun _ => []) newDb 0 999999 2 [] _ _ _ _ hinv2 h2

/-- Counterexample to C4 as stated: 1000001 sequential successful saves
into an initially empty directory (history depth 0, empty store) produce
the identifier list `1..999999, 1000000, 1000000` - identifier 1000000 is
reused because its 7-digit file name is invisible to discovery - which is
not `1..1000001`. -/
theorem save_id_monotonic_counterexample :
    saveRun (fun _ => []) newDb 0 1000001 [] =
      .ok (List.range' 1 999999 ++ [1000000, 1000000],
        pairDir [] [] 999999 1 ++
          [⟨generateSnapshotName 1000000, [], true⟩,
           ⟨generateChecksumName 1000000, [], true⟩]) ∧
    List.range' 1 999999 ++ [1000000, 1000000] ≠ List.range' 1 1000001 := by
  refine ⟨saveRun_overflow, ?_⟩
  intro h
  have h1 : (List.range' 1 999999 ++ [1000000, 1000000]).getLast? = some 1000000 := by
    rw [List.getLast?_append]
    rfl
  rw [h, List.getLast?_range'] at h1
  rw [if_neg (by omega)] at h1
  simp only [Option.some.injEq] at h1
  omega

/-- Counterexample to C5 as stated: after 1000001 successful saves with
history depth 0 (h < N-1), the directory holds 4 files - the pairs of
identifiers 999999 and 1000000 - that is 2 snapshot+checksum pairs, not
the h+1 = 1 pair the claim predicts. -/
theorem retention_counterexample :
    saveRun (fun _ => []) newDb 0 1000001 [] =
      .ok (List.range' 1 999999 ++ [1000000, 1000000],
        pairDir [] [] 999999 1 ++
          [⟨generateSnapshotName 1000000, [], true⟩,
           ⟨generateChecksumName 1000000, [], true⟩]) ∧
    (pairDir [] [] 999999 1 ++
      [⟨generateSnapshotName 1000000, [], true⟩,
       ⟨generateChecksumName 1000000, [], true⟩] : Dir).length = 4 ∧
    2 * (0 + 1) ≠ 4 := by
  refine ⟨saveRun_overflow, ?_, by omega⟩
  rw [List.length_append, pairDir_length [] [] 1 999999]
  rfl

/-! General characterization of the retention sweep. -/

lemma removePairs_filter : ∀ (ids : List Nat) (dir : Dir), ids.Nodup →
    (∀ i ∈ ids, (∃ f ∈ dir, f.name = generateSnapshotName i) ∧
      (∃ f ∈ dir, f.name = generateChecksumName i)) →
    removePairs dir ids =
      (dir.filter (fun f => ids.all (fun i =>
        !(f.name == generateSnapshotName i) && !(f.name == generateChecksumName i))),
        .ok ()) := by
  intro ids
  induction ids with
  | nil =>
    intro dir _ _
    rw [removePairs]
    have hpred : dir.filter (fun f => List.all [] (fun i =>
        !(f.name == generateSnapshotName i) &&
          !(f.name == generateChecksumName i))) = dir :=
      List.filter_eq_self.mpr (fun a _ => rfl)
    rw [hpred]
  | cons i ids ih =>
    intro dir hnodup hex
    obtain ⟨⟨fs, hfs, hfsname⟩, ⟨fc, hfc, hfcname⟩⟩ := hex i (by simp)
    rw [removePairs]
    cases hf1 : findFile dir (generateSnapshotName i) with
    | none =>
      rw [findFile_none_iff] at hf1
      exact absurd hfsname (hf1 fs hfs)
    | some f =>
      rw [removeFile, hf1]
      dsimp only
      have hfc1 : fc ∈ dir.filter (fun f => !(f.name == generateSnapshotName i)) := by
        rw [List.mem_filter]
        refine ⟨hfc, ?_⟩
        rw [hfcname]
        simp only [Bool.not_eq_true', beq_eq_false_iff_ne, ne_eq]
        intro hc
        exact generateSnapshotName_ne_checksumName i i hc.symm
      cases hf2 : findFile (dir.filter (fun f => !(f.name == generateSnapshotName i)))
          (generateChecksumName i) with
      | none =>
        rw [findFile_none_iff] at hf2
        exact absurd hfcname (hf2 fc hfc1)
      | some f2 =>
        rw [removeFile, hf2]
        dsimp only
        rw [List.filter_filter]
        rw [ih _ (List.nodup_cons.mp hnodup).2 ?ex]
        case ex =>
          intro j hj
          obtain ⟨⟨gs, hgs, hgsname⟩, ⟨gc, hgc, hgcname⟩⟩ := hex j (by simp [hj])
          have hji : j ≠ i := by
            intro hc
            subst hc
            exact (List.nodup_cons.mp hnodup).1 hj
          constructor
          · refine ⟨gs, ?_, hgsname⟩
            rw [List.mem_filter]
            refine ⟨hgs, ?_⟩
            rw [hgsname]
            simp only [Bool.and_eq_true, Bool.not_eq_true', beq_eq_false_iff_ne, ne_eq]
            constructor
            · intro hc
              exact generateSnapshotName_ne_checksumName j i hc
            · intro hc
              exact hji (generateSnapshotName_injective j i hc)
          · refine ⟨gc, ?_, hgcname⟩
            rw [List.mem_filter]
            refine ⟨hgc, ?_⟩
            rw [hgcname]
            simp only [Bool.and_eq_true, Bool.not_eq_true', beq_eq_false_iff_ne, ne_eq]
            constructor
            · intro hc
              exact hji (generateChecksumName_injective j i hc)
            · intro hc
              exact generateSnapshotName_ne_checksumName i j hc.symm
        rw [List.filter_filter]
        have hpt : ∀ a ∈ dir,
            (List.all ids (fun i => !(a.name == generateSnapshotName i) &&
              !(a.name == generateChecksumName i)) &&
              (!(a.name == generateChecksumName i) &&
                !(a.name == generateSnapshotName i))) =
            List.all (i :: ids) (fun i => !(a.name == generateSnapshotName i) &&
              !(a.name == generateChecksumName i)) := by
          intro a _
          rw [List.all_cons]
          cases hx : (a.name == generateSnapshotName i) <;>
            cases hy : (a.name == generateChecksumName i) <;>
            cases hz : List.all ids (fun i => !(a.name == generateSnapshotName i) &&
              !(a.name == generateChecksumName i)) <;> rfl
        rw [List.filter_congr hpt]

/-- C5 (amended): the retention sweep sorts all discovered identifiers
ascending, does nothing when their count is at most `h+1`, and otherwise
deletes exactly the oldest `count-(h+1)` identifiers' snapshot and
checksum file pairs, oldest first (stated as the filtered directory,
under the hypotheses that the discovered identifiers are distinct and
each deleted pair exists); and after `N ≤ 999999` successful saves with
history depth `h < N-1` into an initially empty directory, exactly `h+1`
snapshot+checksum pairs remain, namely the `h+1` largest identifiers
`N-h..N`.  (Beyond 999999 saves the 6-digit discovery pattern breaks and
extra pairs accumulate.) -/
theorem retention_sweep :
    (∀ (dir : Dir) (hist : Nat), (getAllSnapshotIds dir).length ≤ hist + 1 →
      cleanupSnapshotsUpTo dir hist = (dir, .ok ())) ∧
    (∀ (dir : Dir) (hist : Nat), (getAllSnapshotIds dir).Nodup →
      (getAllSnapshotIds dir).length > hist + 1 →
      (∀ i ∈ (getAllSnapshotIds dir).take ((getAllSnapshotIds dir).length - (hist + 1)),
        (∃ f ∈ dir, f.name = generateSnapshotName i) ∧
        (∃ f ∈ dir, f.name = generateChecksumName i)) →
      cleanupSnapshotsUpTo dir hist =
        (dir.filter (fun f =>
          ((getAllSnapshotIds dir).take
            ((getAllSnapshotIds dir).length - (hist + 1))).all
            (fun i => !(f.name == generateSnapshotName i) &&
              !(f.name == generateChecksumName i))), .ok ())) ∧
    (∀ (hash : List Nat → List Nat) (d : Db) (B : List Nat) (h N : Nat),
      encodeEntries d.data = (B, .ok ()) → h < N - 1 → N ≤ 999999 →
      saveRun hash d h N [] =
        .ok (List.range' 1 N, pairDir B (hash B) (N - h) (h + 1)) ∧
      (pairDir B (hash B) (N - h) (h + 1)).length = 2 * (h + 1) ∧
      getAllSnapshotIds (pairDir B (hash B) (N - h) (h + 1)) =
        List.range' (N - h) (h + 1)) := by
  refine ⟨?_, ?_, ?_⟩
  · intro dir hist hle
    rw [cleanupSnapshotsUpTo]
    rw [if_pos hle]
  · intro dir hist hnodup hgt hex
    rw [cleanupSnapshotsUpTo]
    rw [if_neg (by omega)]
    have htnd : ((getAllSnapshotIds dir).take
        ((getAllSnapshotIds dir).length - (hist + 1))).Nodup :=
      hnodup.sublist (List.take_sublist _ _)
    exact removePairs_filter _ dir htnd hex
  · intro hash d B h N henc hh hle
    have hmn : min N (h + 1) = h + 1 := by omega
    have hlv : N + 1 - (h + 1) = N - h := by omega
    have hinv := saveRun_invariant hash d h B henc N (by omega) hle
    rw [hmn, hlv] at hinv
    refine ⟨hinv, pairDir_length B (hash B) (h + 1) (N - h), ?_⟩
    exact pairDir_ids B (hash B) (h + 1) (N - h) (by omega)

/-- Witness for C5 (amended): an empty directory is untouched at depth 0;
a directory with pairs 1 and 2 at depth 0 is swept to the filtered
directory; and 2 saves at depth 0 leave exactly the pair of identifier 2. -/
theorem retention_sweep_witness :
    cleanupSnapshotsUpTo [] 0 = ([], .ok ()) ∧
    cleanupSnapshotsUpTo (pairDir [] [] 1 2) 0 =
      ((pairDir [] [] 1 2).filter (fun f =>
        ((getAllSnapshotIds (pairDir [] [] 1 2)).take
          ((getAllSnapshotIds (pairDir [] [] 1 2)).length - (0 + 1))).all
          (fun i => !(f.name == generateSnapshotName i) &&
            !(f.name == generateChecksumName i))), .ok ()) ∧
    saveRun (fun _ => []) newDb 0 2 [] =
      .ok (List.range' 1 2, pairDir [] [] (2 - 0) (0 + 1)) := by
  have hids : getAllSnapshotIds (pairDir [] [] 1 2) = List.range' 1 2 :=
    pairDir_ids [] [] 2 1 (by omega)
  refine ⟨retention_sweep.1 [] 0 (by rw [show getAllSnapshotIds [] = [] from rfl]; simp),
    retention_sweep.2.1 (pairDir [] [] 1 2) 0 ?_ ?_ ?_, ?_⟩
  · rw [hids]
    exact (List.pairwise_lt_range' 1 2 1 (by omega)).imp (fun h => Nat.ne_of_lt h)
  · rw [hids]
    simp [List.length_range']
  · intro i hi
    rw [hids] at hi
    rw [show (List.range' 1 2).length = 2 from by simp [List.length_range']] at hi
    rw [take_range' 1 2 (2 - (0 + 1)) (by omega)] at hi
    have : i = 1 := by
      rcases List.mem_range'_1.mp hi with ⟨h1, h2⟩
      omega
    subst this
    constructor
    · refine ⟨⟨generateSnapshotName 1, [], true⟩, ?_, rfl⟩
      rw [pairDir_succ]
      simp
    · refine ⟨⟨generateChecksumName 1, [], true⟩, ?_, rfl⟩
      rw [pairDir_succ]
      simp
  · exact (retention_sweep.2.2 (fun _ => []) newDb [] 0 2 rfl (by omega) (by omega)).1

lemma encodeEntries_image (entries : List (List Nat × List Nat))
    (hkeys : ∀ p ∈ entries, ∀ b ∈ p.1, b < 256) :
    encodeEntries (entries.map (fun p => (hexEncode p.1, p.2))) =
      ((entries.map (fun p => packBytes p.1 p.2)).flatten, .ok ()) := by
  induction entries with
  | nil => rfl
  | cons p rest ih =>
    rw [List.map_cons, encodeEntries]
    rw [hexDecode_hexEncode p.1 (hkeys p (by simp))]
    dsimp only
    rw [ih (fun q hq => hkeys q (by simp [hq]))]
    rw [List.map_cons, List.flatten_cons]

lemma findFile_filter_none (dir : Dir) (p : FsFile → Bool) (n : List Nat)
    (h : findFile dir n = none) : findFile (dir.filter p) n = none := by
  rw [findFile_none_iff] at h ⊢
  intro f hf
  exact h f (List.mem_of_mem_filter hf)

lemma getMaxSnapshotId_filter_le (dir : Dir) (p : FsFile → Bool) :
    getMaxSnapshotId (dir.filter p) ≤ getMaxSnapshotId dir := by
  apply getMaxSnapshotId_le
  intro f hf
  exact le_getMaxSnapshotId dir f (List.mem_of_mem_filter hf)

lemma load_pair_tail (hash : List Nat → List Nat) (d' : Db) (dirKeep : Dir)
    (entries : List (List Nat × List Nat)) (id : Nat)
    (hnodup : (entries.map (fun p => hexEncode p.1)).Nodup)
    (hlen : ∀ p ∈ entries, 8 + p.1.length + p.2.length < 2 ^ 32)
    (hceil2 : id ≤ 999999)
    (hlt : getMaxSnapshotId dirKeep < id)
    (hsnapK : findFile dirKeep (generateSnapshotName id) = none)
    (hchkK : findFile dirKeep (generateChecksumName id) = none) :
    load hash d' (dirKeep ++
        [⟨generateSnapshotName id, (entries.map (fun p => packBytes p.1 p.2)).flatten, true⟩,
         ⟨generateChecksumName id,
           hash ((entries.map (fun p => packBytes p.1 p.2)).flatten), true⟩]) =
      ({ d' with data := entries.map (fun p => (hexEncode p.1, p.2)) }, .ok ()) := by
  have hmax : getMaxSnapshotId (dirKeep ++
      [⟨generateSnapshotName id, (entries.map (fun p => packBytes p.1 p.2)).flatten, true⟩,
       ⟨generateChecksumName id,
         hash ((entries.map (fun p => packBytes p.1 p.2)).flatten), true⟩]) = id := by
    rw [getMaxSnapshotId_append, getMaxSnapshotId_cons, getMaxSnapshotId_cons]
    rw [show getMaxSnapshotId [] = 0 from rfl]
    have h1 : isSnapshotName (generateSnapshotName id) = true :=
      isSnapshotName_generate id hceil2
    have h2 : isSnapshotName (generateChecksumName id) = false :=
      isSnapshotName_checksumName id
    simp only [h1, h2, Bool.and_true, Bool.and_false, Bool.false_eq_true,
      if_true, if_false, parse_generateSnapshotName]
    omega
  have hfs : findFile (dirKeep ++
      [⟨generateSnapshotName id, (entries.map (fun p => packBytes p.1 p.2)).flatten, true⟩,
       ⟨generateChecksumName id,
         hash ((entries.map (fun p => packBytes p.1 p.2)).flatten), true⟩])
      (generateSnapshotName id) =
      some ⟨generateSnapshotName id,
        (entries.map (fun p => packBytes p.1 p.2)).flatten, true⟩ := by
    rw [findFile_append_of_none dirKeep _ _ hsnapK]
    exact findFile_cons_self _ _
  have hfc : findFile (dirKeep ++
      [⟨generateSnapshotName id, (entries.map (fun p => packBytes p.1 p.2)).flatten, true⟩,
       ⟨generateChecksumName id,
         hash ((entries.map (fun p => packBytes p.1 p.2)).flatten), true⟩])
      (generateChecksumName id) =
      some ⟨generateChecksumName id,
        hash ((entries.map (fun p => packBytes p.1 p.2)).flatten), true⟩ := by
    rw [findFile_append_of_none dirKeep _ _ hchkK]
    rw [findFile_cons_of_ne _ _ _ (by
      simp only
      exact generateSnapshotName_ne_checksumName id id)]
    exact findFile_cons_self _ _
  have hver : verifySnapshotChecksum hash id (dirKeep ++
      [⟨generateSnapshotName id, (entries.map (fun p => packBytes p.1 p.2)).flatten, true⟩,
       ⟨generateChecksumName id,
         hash ((entries.map (fun p => packBytes p.1 p.2)).flatten), true⟩]) = .ok () := by
    rw [verifySnapshotChecksum, readFile, hfc]
    dsimp only
    rw [if_pos (rfl : (true : Bool) = true)]
    rw [getSnapshotChecksum, readFile, hfs]
    dsimp only
    rw [if_pos (rfl : (true : Bool) = true)]
    dsimp only
    rw [if_pos rfl]
  rw [load, hmax, if_neg (by omega), hver]
  dsimp only
  rw [readFile, hfs]
  dsimp only
  rw [if_pos (rfl : (true : Bool) = true)]
  dsimp only
  rw [loadLoop_frames entries [] hlen]
  dsimp only
  rw [foldl_mapInsert_image entries [] hnodup
    (fun p _ q hq => absurd hq (List.not_mem_nil q))]
  rw [List.nil_append]

/-- C1 (amended): the save/load round trip.  Provided the directory's
largest snapshot identifier is below the 999999 naming ceiling, the new
identifier's files are fresh, the stored keys are the hex encodings of
distinct byte strings, every frame fits in a uint32, and the directory
is a well-formed snapshot store (its discovered identifiers are
distinct, and a snapshot/checksum file pair is present for every
identifier the retention sweep is to delete), save succeeds - whether
or not the retention sweep fires - writing the concatenated frames plus
their digest and sweeping only the file pairs of older identifiers, and
a subsequent load from the resulting directory on any store reproduces
exactly the original map, for all byte contents.  (At the ceiling the
round trip breaks: see the counterexample, where save succeeds with
identifier 1000000 but load cannot see it.) -/
theorem save_load_roundtrip
    (hash : List Nat → List Nat) (d d' : Db) (dir : Dir) (hist : Nat)
    (entries : List (List Nat × List Nat)) (id : Nat)
    (hdata : d.data = entries.map (fun p => (hexEncode p.1, p.2)))
    (hkeys : ∀ p ∈ entries, ∀ b ∈ p.1, b < 256)
    (hnodup : (entries.map (fun p => hexEncode p.1)).Nodup)
    (hlen : ∀ p ∈ entries, 8 + p.1.length + p.2.length < 2 ^ 32)
    (hid : id = getMaxSnapshotId dir + 1)
    (hceil : getMaxSnapshotId dir < 999999)
    (hsnap : findFile dir (generateSnapshotName id) = none)
    (hchk : findFile dir (generateChecksumName id) = none)
    (hnd : (getAllSnapshotIds (dir ++
      [⟨generateSnapshotName id, (entries.map (fun p => packBytes p.1 p.2)).flatten, true⟩,
       ⟨generateChecksumName id,
         hash ((entries.map (fun p => packBytes p.1 p.2)).flatten), true⟩])).Nodup)
    (hex : ∀ i ∈ toDeleteIds (dir ++
      [⟨generateSnapshotName id, (entries.map (fun p => packBytes p.1 p.2)).flatten, true⟩,
       ⟨generateChecksumName id,
         hash ((entries.map (fun p => packBytes p.1 p.2)).flatten), true⟩]) hist,
      (∃ f ∈ dir, f.name = generateSnapshotName i) ∧
      (∃ f ∈ dir, f.name = generateChecksumName i)) :
    save hash d dir hist =
      (d, dir.filter (keepsFile (toDeleteIds (dir ++
        [⟨generateSnapshotName id, (entries.map (fun p => packBytes p.1 p.2)).flatten, true⟩,
         ⟨generateChecksumName id,
           hash ((entries.map (fun p => packBytes p.1 p.2)).flatten), true⟩]) hist)) ++
        [⟨generateSnapshotName id, (entries.map (fun p => packBytes p.1 p.2)).flatten, true⟩,
         ⟨generateChecksumName id,
           hash ((entries.map (fun p => packBytes p.1 p.2)).flatten), true⟩], .ok id) ∧
    load hash d' (dir.filter (keepsFile (toDeleteIds (dir ++
        [⟨generateSnapshotName id, (entries.map (fun p => packBytes p.1 p.2)).flatten, true⟩,
         ⟨generateChecksumName id,
           hash ((entries.map (fun p => packBytes p.1 p.2)).flatten), true⟩]) hist)) ++
        [⟨generateSnapshotName id, (entries.map (fun p => packBytes p.1 p.2)).flatten, true⟩,
         ⟨generateChecksumName id,
           hash ((entries.map (fun p => packBytes p.1 p.2)).flatten), true⟩]) =
      ({ d' with data := d.data }, .ok ()) := by
  have henc : encodeEntries d.data =
      ((entries.map (fun p => packBytes p.1 p.2)).flatten, .ok ()) := by
    rw [hdata]
    exact encodeEntries_image entries hkeys
  have hidnot : id ∉ toDeleteIds (dir ++
      [⟨generateSnapshotName id, (entries.map (fun p => packBytes p.1 p.2)).flatten, true⟩,
       ⟨generateChecksumName id,
         hash ((entries.map (fun p => packBytes p.1 p.2)).flatten), true⟩]) hist := by
    intro hmem
    obtain ⟨⟨f, hf, hfn⟩, _⟩ := hex id hmem
    exact (findFile_none_iff dir _).mp hsnap f hf hfn
  have hsnapkeep : keepsFile (toDeleteIds (dir ++
      [⟨generateSnapshotName id, (entries.map (fun p => packBytes p.1 p.2)).flatten, true⟩,
       ⟨generateChecksumName id,
         hash ((entries.map (fun p => packBytes p.1 p.2)).flatten), true⟩]) hist)
      ⟨generateSnapshotName id,
        (entries.map (fun p => packBytes p.1 p.2)).flatten, true⟩ = true := by
    rw [keepsFile, List.all_eq_true]
    intro i hi
    have hne : id ≠ i := by
      intro e
      rw [← e] at hi
      exact hidnot hi
    simp only [Bool.and_eq_true, Bool.not_eq_true', beq_eq_false_iff_ne, ne_eq]
    exact ⟨fun hc => hne (generateSnapshotName_injective _ _ hc),
      fun hc => generateSnapshotName_ne_checksumName id i hc⟩
  have hchkkeep : keepsFile (toDeleteIds (dir ++
      [⟨generateSnapshotName id, (entries.map (fun p => packBytes p.1 p.2)).flatten, true⟩,
       ⟨generateChecksumName id,
         hash ((entries.map (fun p => packBytes p.1 p.2)).flatten), true⟩]) hist)
      ⟨generateChecksumName id,
        hash ((entries.map (fun p => packBytes p.1 p.2)).flatten), true⟩ = true := by
    rw [keepsFile, List.all_eq_true]
    intro i hi
    have hne : id ≠ i := by
      intro e
      rw [← e] at hi
      exact hidnot hi
    simp only [Bool.and_eq_true, Bool.not_eq_true', beq_eq_false_iff_ne, ne_eq]
    exact ⟨fun hc => generateSnapshotName_ne_checksumName i id hc.symm,
      fun hc => hne (generateChecksumName_injective _ _ hc)⟩
  have hclean : cleanupSnapshotsUpTo (dir ++
      [⟨generateSnapshotName id, (entries.map (fun p => packBytes p.1 p.2)).flatten, true⟩,
       ⟨generateChecksumName id,
         hash ((entries.map (fun p => packBytes p.1 p.2)).flatten), true⟩]) hist =
      (dir.filter (keepsFile (toDeleteIds (dir ++
        [⟨generateSnapshotName id, (entries.map (fun p => packBytes p.1 p.2)).flatten, true⟩,
         ⟨generateChecksumName id,
           hash ((entries.map (fun p => packBytes p.1 p.2)).flatten), true⟩]) hist)) ++
        [⟨generateSnapshotName id, (entries.map (fun p => packBytes p.1 p.2)).flatten, true⟩,
         ⟨generateChecksumName id,
           hash ((entries.map (fun p => packBytes p.1 p.2)).flatten), true⟩], .ok ()) := by
    rw [cleanupSnapshotsUpTo]
    by_cases hc : (getAllSnapshotIds (dir ++
        [⟨generateSnapshotName id, (entries.map (fun p => packBytes p.1 p.2)).flatten, true⟩,
         ⟨generateChecksumName id,
           hash ((entries.map (fun p => packBytes p.1 p.2)).flatten), true⟩])).length ≤
        hist + 1
    · rw [if_pos hc]
      have htD0 : toDeleteIds (dir ++
          [⟨generateSnapshotName id, (entries.map (fun p => packBytes p.1 p.2)).flatten, true⟩,
           ⟨generateChecksumName id,
             hash ((entries.map (fun p => packBytes p.1 p.2)).flatten), true⟩]) hist = [] := by
        rw [toDeleteIds, show (getAllSnapshotIds (dir ++
          [⟨generateSnapshotName id, (entries.map (fun p => packBytes p.1 p.2)).flatten, true⟩,
           ⟨generateChecksumName id,
             hash ((entries.map (fun p => packBytes p.1 p.2)).flatten), true⟩])).length -
          (hist + 1) = 0 from by omega, List.take_zero]
      rw [htD0]
      rw [show dir.filter (keepsFile []) = dir from
        List.filter_eq_self.mpr (fun f _ => rfl)]
    · rw [if_neg hc]
      have htnd : (toDeleteIds (dir ++
          [⟨generateSnapshotName id, (entries.map (fun p => packBytes p.1 p.2)).flatten, true⟩,
           ⟨generateChecksumName id,
             hash ((entries.map (fun p => packBytes p.1 p.2)).flatten), true⟩]) hist).Nodup :=
        hnd.sublist (List.take_sublist _ _)
      have hex2 : ∀ i ∈ toDeleteIds (dir ++
          [⟨generateSnapshotName id, (entries.map (fun p => packBytes p.1 p.2)).flatten, true⟩,
           ⟨generateChecksumName id,
             hash ((entries.map (fun p => packBytes p.1 p.2)).flatten), true⟩]) hist,
          (∃ f ∈ dir ++
            [⟨generateSnapshotName id, (entries.map (fun p => packBytes p.1 p.2)).flatten, true⟩,
             ⟨generateChecksumName id,
               hash ((entries.map (fun p => packBytes p.1 p.2)).flatten), true⟩],
            f.name = generateSnapshotName i) ∧
          (∃ f ∈ dir ++
            [⟨generateSnapshotName id, (entries.map (fun p => packBytes p.1 p.2)).flatten, true⟩,
             ⟨generateChecksumName id,
               hash ((entries.map (fun p => packBytes p.1 p.2)).flatten), true⟩],
            f.name = generateChecksumName i) := by
        intro i hi
        obtain ⟨⟨fs, hfs1, hfsn⟩, ⟨fc, hfc1, hfcn⟩⟩ := hex i hi
        exact ⟨⟨fs, List.mem_append_left _ hfs1, hfsn⟩,
          ⟨fc, List.mem_append_left _ hfc1, hfcn⟩⟩
      rw [show (getAllSnapshotIds (dir ++
        [⟨generateSnapshotName id, (entries.map (fun p => packBytes p.1 p.2)).flatten, true⟩,
         ⟨generateChecksumName id,
           hash ((entries.map (fun p => packBytes p.1 p.2)).flatten), true⟩])).take
        ((getAllSnapshotIds (dir ++
          [⟨generateSnapshotName id, (entries.map (fun p => packBytes p.1 p.2)).flatten, true⟩,
           ⟨generateChecksumName id,
             hash ((entries.map (fun p => packBytes p.1 p.2)).flatten), true⟩])).length -
          (hist + 1)) = toDeleteIds (dir ++
          [⟨generateSnapshotName id, (entries.map (fun p => packBytes p.1 p.2)).flatten, true⟩,
           ⟨generateChecksumName id,
             hash ((entries.map (fun p => packBytes p.1 p.2)).flatten), true⟩]) hist from rfl]
      rw [removePairs_filter _ _ htnd hex2]
      rw [show (fun f => (toDeleteIds (dir ++
          [⟨generateSnapshotName id, (entries.map (fun p => packBytes p.1 p.2)).flatten, true⟩,
           ⟨generateChecksumName id,
             hash ((entries.map (fun p => packBytes p.1 p.2)).flatten), true⟩]) hist).all
          (fun i => !(f.name == generateSnapshotName i) &&
            !(f.name == generateChecksumName i))) = keepsFile (toDeleteIds (dir ++
          [⟨generateSnapshotName id, (entries.map (fun p => packBytes p.1 p.2)).flatten, true⟩,
           ⟨generateChecksumName id,
             hash ((entries.map (fun p => packBytes p.1 p.2)).flatten), true⟩]) hist)
          from rfl]
      rw [List.filter_append]
      rw [List.filter_cons, if_pos hsnapkeep, List.filter_cons, if_pos hchkkeep,
        List.filter_nil]
  refine ⟨save_fresh_ok hash d dir _ hist _ id henc hid hsnap hchk hclean, ?_⟩
  rw [hdata]
  refine load_pair_tail hash d' _ entries id hnodup hlen (by omega) ?_ ?_ ?_
  · have := getMaxSnapshotId_filter_le dir (keepsFile (toDeleteIds (dir ++
      [⟨generateSnapshotName id, (entries.map (fun p => packBytes p.1 p.2)).flatten, true⟩,
       ⟨generateChecksumName id,
         hash ((entries.map (fun p => packBytes p.1 p.2)).flatten), true⟩]) hist))
    omega
  · exact findFile_filter_none dir _ _ hsnap
  · exact findFile_filter_none dir _ _ hchk

/-- Witness for C1 (amended): the single entry key=0x00, value=0xff is
saved into an empty directory and loaded back unchanged (the sweep does
nothing); and the same entry saved at history depth 0 into a directory
already holding the snapshot/checksum pair of identifier 1 - so the
retention sweep fires and deletes that pair - is loaded back unchanged
as well. -/
theorem save_load_roundtrip_witness :
    (save (fun _ => []) ⟨[(hexEncode [0], [255])], false⟩ [] 0 =
      (⟨[(hexEncode [0], [255])], false⟩,
        [] ++ [⟨generateSnapshotName 1, (([(([0] : List Nat), ([255] : List Nat))].map (fun p => packBytes p.1 p.2)).flatten), true⟩,
          ⟨generateChecksumName 1, [], true⟩], .ok 1) ∧
    load (fun _ => []) ⟨[(hexEncode [0], [255])], false⟩
        ([] ++ [⟨generateSnapshotName 1, (([(([0] : List Nat), ([255] : List Nat))].map (fun p => packBytes p.1 p.2)).flatten), true⟩,
          ⟨generateChecksumName 1, [], true⟩]) =
      (⟨[(hexEncode [0], [255])], false⟩, .ok ())) ∧
    (save (fun _ => []) ⟨[(hexEncode [0], [255])], false⟩
        [⟨generateSnapshotName 1, [9], true⟩, ⟨generateChecksumName 1, [7], true⟩] 0 =
      (⟨[(hexEncode [0], [255])], false⟩,
        ([⟨generateSnapshotName 1, [9], true⟩,
          ⟨generateChecksumName 1, [7], true⟩] : Dir).filter
            (keepsFile (toDeleteIds
              ([⟨generateSnapshotName 1, [9], true⟩, ⟨generateChecksumName 1, [7], true⟩] ++
                [⟨generateSnapshotName 2, (([(([0] : List Nat), ([255] : List Nat))].map (fun p => packBytes p.1 p.2)).flatten), true⟩,
                 ⟨generateChecksumName 2, [], true⟩]) 0)) ++
          [⟨generateSnapshotName 2, (([(([0] : List Nat), ([255] : List Nat))].map (fun p => packBytes p.1 p.2)).flatten), true⟩,
           ⟨generateChecksumName 2, [], true⟩], .ok 2) ∧
    load (fun _ => []) ⟨[(hexEncode [0], [255])], false⟩
        (([⟨generateSnapshotName 1, [9], true⟩,
          ⟨generateChecksumName 1, [7], true⟩] : Dir).filter
            (keepsFile (toDeleteIds
              ([⟨generateSnapshotName 1, [9], true⟩, ⟨generateChecksumName 1, [7], true⟩] ++
                [⟨generateSnapshotName 2, (([(([0] : List Nat), ([255] : List Nat))].map (fun p => packBytes p.1 p.2)).flatten), true⟩,
                 ⟨generateChecksumName 2, [], true⟩]) 0)) ++
          [⟨generateSnapshotName 2, (([(([0] : List Nat), ([255] : List Nat))].map (fun p => packBytes p.1 p.2)).flatten), true⟩,
           ⟨generateChecksumName 2, [], true⟩]) =
      (⟨[(hexEncode [0], [255])], false⟩, .ok ())) := by
  constructor
  · exact save_load_roundtrip (fun _ => []) ⟨[(hexEncode [0], [255])], false⟩
      ⟨[(hexEncode [0], [255])], false⟩ [] 0 [(([0] : List Nat), ([255] : List Nat))] 1
      rfl (by decide) (by simp) (by decide) rfl (by decide) rfl rfl
      (by
        show (getAllSnapshotIds ([] ++ [⟨generateSnapshotName 1, (([(([0] : List Nat), ([255] : List Nat))].map (fun p => packBytes p.1 p.2)).flatten), true⟩,
          ⟨generateChecksumName 1, [], true⟩])).Nodup
        have hdir : pairDir (([(([0] : List Nat), ([255] : List Nat))].map (fun p => packBytes p.1 p.2)).flatten) [] 1 1 =
            ([] ++ [⟨generateSnapshotName 1, (([(([0] : List Nat), ([255] : List Nat))].map (fun p => packBytes p.1 p.2)).flatten), true⟩,
              ⟨generateChecksumName 1, [], true⟩] : Dir) := by
          rw [pairDir_succ, pairDir_zero]
          rfl
        have hpd := pairDir_ids (([(([0] : List Nat), ([255] : List Nat))].map (fun p => packBytes p.1 p.2)).flatten) [] 1 1 (by omega)
        rw [hdir] at hpd
        rw [hpd]
        exact (List.pairwise_lt_range' 1 1 1 (by omega)).imp (fun h => Nat.ne_of_lt h))
      (by
        show ∀ i ∈ toDeleteIds ([] ++ [⟨generateSnapshotName 1, (([(([0] : List Nat), ([255] : List Nat))].map (fun p => packBytes p.1 p.2)).flatten), true⟩,
            ⟨generateChecksumName 1, [], true⟩]) 0,
          (∃ f ∈ ([] : Dir), f.name = generateSnapshotName i) ∧
          (∃ f ∈ ([] : Dir), f.name = generateChecksumName i)
        have hdir : pairDir (([(([0] : List Nat), ([255] : List Nat))].map (fun p => packBytes p.1 p.2)).flatten) [] 1 1 =
            ([] ++ [⟨generateSnapshotName 1, (([(([0] : List Nat), ([255] : List Nat))].map (fun p => packBytes p.1 p.2)).flatten), true⟩,
              ⟨generateChecksumName 1, [], true⟩] : Dir) := by
          rw [pairDir_succ, pairDir_zero]
          rfl
        have hpd := pairDir_ids (([(([0] : List Nat), ([255] : List Nat))].map (fun p => packBytes p.1 p.2)).flatten) [] 1 1 (by omega)
        rw [hdir] at hpd
        have htD : toDeleteIds ([] ++ [⟨generateSnapshotName 1, (([(([0] : List Nat), ([255] : List Nat))].map (fun p => packBytes p.1 p.2)).flatten), true⟩,
            ⟨generateChecksumName 1, [], true⟩]) 0 = [] := by
          rw [toDeleteIds, hpd]
          rfl
        intro i hi
        rw [htD] at hi
        exact absurd hi (List.not_mem_nil i))
  · have hsn1 : isSnapshotName (generateSnapshotName 1) = true :=
      isSnapshotName_generate 1 (by omega)
    have hcn1 : isSnapshotName (generateChecksumName 1) = false :=
      isSnapshotName_checksumName 1
    have hsn2 : isSnapshotName (generateSnapshotName 2) = true :=
      isSnapshotName_generate 2 (by omega)
    have hcn2 : isSnapshotName (generateChecksumName 2) = false :=
      isSnapshotName_checksumName 2
    have hgm : getMaxSnapshotId [⟨generateSnapshotName 1, [9], true⟩,
        ⟨generateChecksumName 1, [7], true⟩] = 1 := by
      rw [getMaxSnapshotId_cons, getMaxSnapshotId_cons]
      rw [show getMaxSnapshotId [] = 0 from rfl]
      simp only [hsn1, hcn1, Bool.and_true, Bool.and_false, Bool.false_eq_true,
        if_true, if_false, parse_generateSnapshotName]
      omega
    have hids2 : getAllSnapshotIds
        ([⟨generateSnapshotName 1, [9], true⟩, ⟨generateChecksumName 1, [7], true⟩] ++
          [⟨generateSnapshotName 2, (([(([0] : List Nat), ([255] : List Nat))].map (fun p => packBytes p.1 p.2)).flatten), true⟩,
           ⟨generateChecksumName 2, [], true⟩]) = [1, 2] := by
      rw [show ([⟨generateSnapshotName 1, [9], true⟩, ⟨generateChecksumName 1, [7], true⟩] ++
          [⟨generateSnapshotName 2, (([(([0] : List Nat), ([255] : List Nat))].map (fun p => packBytes p.1 p.2)).flatten), true⟩,
           ⟨generateChecksumName 2, [], true⟩] : Dir) =
        [⟨generateSnapshotName 1, [9], true⟩, ⟨generateChecksumName 1, [7], true⟩,
         ⟨generateSnapshotName 2, (([(([0] : List Nat), ([255] : List Nat))].map (fun p => packBytes p.1 p.2)).flatten), true⟩,
         ⟨generateChecksumName 2, [], true⟩] from rfl]
      rw [getAllSnapshotIds]
      rw [List.filter_cons, List.filter_cons, List.filter_cons, List.filter_cons,
        List.filter_nil]
      simp only [hsn1, hcn1, hsn2, hcn2, Bool.and_true, Bool.and_false, Bool.true_and,
        Bool.false_eq_true, if_true, if_false]
      rw [List.map_cons, List.map_cons, List.map_nil, parse_generateSnapshotName,
        parse_generateSnapshotName]
      rfl
    have htD2 : toDeleteIds
        ([⟨generateSnapshotName 1, [9], true⟩, ⟨generateChecksumName 1, [7], true⟩] ++
          [⟨generateSnapshotName 2, (([(([0] : List Nat), ([255] : List Nat))].map (fun p => packBytes p.1 p.2)).flatten), true⟩,
           ⟨generateChecksumName 2, [], true⟩]) 0 = [1] := by
      rw [toDeleteIds, hids2]
      rfl
    exact save_load_roundtrip (fun _ => []) ⟨[(hexEncode [0], [255])], false⟩
      ⟨[(hexEncode [0], [255])], false⟩
      [⟨generateSnapshotName 1, [9], true⟩, ⟨generateChecksumName 1, [7], true⟩] 0
      [(([0] : List Nat), ([255] : List Nat))] 2
      rfl (by decide) (by simp) (by decide)
      (by rw [hgm])
      (by rw [hgm]; omega)
      (by
        rw [findFile_cons_of_ne _ _ _ (by
          simp only
          intro hc
          exact absurd (generateSnapshotName_injective _ _ hc) (by omega))]
        rw [findFile_cons_of_ne _ _ _ (by
          simp only
          intro hc
          exact generateSnapshotName_ne_checksumName 2 1 hc.symm)]
        rfl)
      (by
        rw [findFile_cons_of_ne _ _ _ (by
          simp only
          exact generateSnapshotName_ne_checksumName 1 2)]
        rw [findFile_cons_of_ne _ _ _ (by
          simp only
          intro hc
          exact absurd (generateChecksumName_injective _ _ hc) (by omega))]
        rfl)
      (by
        show (getAllSnapshotIds
          ([⟨generateSnapshotName 1, [9], true⟩, ⟨generateChecksumName 1, [7], true⟩] ++
            [⟨generateSnapshotName 2, (([(([0] : List Nat), ([255] : List Nat))].map (fun p => packBytes p.1 p.2)).flatten), true⟩,
             ⟨generateChecksumName 2, [], true⟩])).Nodup
        rw [hids2]
        decide)
      (by
        show ∀ i ∈ toDeleteIds
            ([⟨generateSnapshotName 1, [9], true⟩, ⟨generateChecksumName 1, [7], true⟩] ++
              [⟨generateSnapshotName 2, (([(([0] : List Nat), ([255] : List Nat))].map (fun p => packBytes p.1 p.2)).flatten), true⟩,
               ⟨generateChecksumName 2, [], true⟩]) 0,
          (∃ f ∈ ([⟨generateSnapshotName 1, [9], true⟩,
            ⟨generateChecksumName 1, [7], true⟩] : Dir), f.name = generateSnapshotName i) ∧
          (∃ f ∈ ([⟨generateSnapshotName 1, [9], true⟩,
            ⟨generateChecksumName 1, [7], true⟩] : Dir), f.name = generateChecksumName i)
        intro i hi
        rw [htD2] at hi
        have hone : i = 1 := by simpa using hi
        subst hone
        refine ⟨⟨⟨generateSnapshotName 1, [9], true⟩, by simp, rfl⟩,
          ⟨⟨generateChecksumName 1, [7], true⟩, by simp, rfl⟩⟩)

/-- Counterexample for C1 as stated: with the directory already holding
snapshot 999999, save succeeds using identifier 1000000, but the new
snapshot's 7-digit name escapes the 6-digit discovery pattern, so the
following load still selects identifier 999999, whose checksum file does
not exist, and fails with the map left empty — not equal to the original
one-entry map. -/
theorem save_load_roundtrip_counterexample :
    save (fun _ => []) ⟨[(hexEncode [7], [8])], false⟩
        [⟨generateSnapshotName 999999, [], true⟩] 0 =
      (⟨[(hexEncode [7], [8])], false⟩,
       [⟨generateSnapshotName 999999, [], true⟩,
        ⟨generateSnapshotName 1000000, packBytes [7] [8] ++ [], true⟩,
        ⟨generateChecksumName 1000000, [], true⟩], .ok 1000000) ∧
    load (fun _ => []) ⟨[(hexEncode [7], [8])], false⟩
        [⟨generateSnapshotName 999999, [], true⟩,
         ⟨generateSnapshotName 1000000, packBytes [7] [8] ++ [], true⟩,
         ⟨generateChecksumName 1000000, [], true⟩] =
      (⟨[], false⟩, .error .fsNotFound) ∧
    ([] : List (List Nat × List Nat)) ≠ [(hexEncode [7], [8])] := by
  have h1 : isSnapshotName (generateSnapshotName 999999) = true :=
    isSnapshotName_generate 999999 (by omega)
  have h2 : isSnapshotName (generateSnapshotName 1000000) = false :=
    isSnapshotName_generate_big 1000000 (by omega)
  have h3 : isSnapshotName (generateChecksumName 1000000) = false :=
    isSnapshotName_checksumName 1000000
  have henc : encodeEntries [(hexEncode [7], [8])] =
      (packBytes [7] [8] ++ [], .ok ()) := by
    rw [encodeEntries]
    rw [hexDecode_hexEncode [7] (by decide)]
    rfl
  refine ⟨?_, ?_, by simp⟩
  · apply save_fresh_ok (fun _ => []) ⟨[(hexEncode [7], [8])], false⟩
      [⟨generateSnapshotName 999999, [], true⟩] _ 0 (packBytes [7] [8] ++ [])
      1000000 henc
    · rw [getMaxSnapshotId_cons]
      rw [show getMaxSnapshotId [] = 0 from rfl]
      simp only [h1, Bool.and_true, if_true, parse_generateSnapshotName]
      omega
    · rw [findFile_cons_of_ne _ _ _ (by
        simp only
        intro hc
        exact absurd (generateSnapshotName_injective _ _ hc) (by omega))]
      rfl
    · rw [findFile_cons_of_ne _ _ _ (by
        simp only
        exact generateSnapshotName_ne_checksumName 999999 1000000)]
      rfl
    · rw [cleanupSnapshotsUpTo]
      have hids : getAllSnapshotIds
          ([⟨generateSnapshotName 999999, [], true⟩] ++
            [⟨generateSnapshotName 1000000, packBytes [7] [8] ++ [], true⟩,
             ⟨generateChecksumName 1000000, (fun _ => ([] : List Nat))
               (packBytes [7] [8] ++ []), true⟩]) = [999999] := by
        rw [getAllSnapshotIds]
        rw [show ([⟨generateSnapshotName 999999, [], true⟩] ++
          [⟨generateSnapshotName 1000000, packBytes [7] [8] ++ [], true⟩,
           ⟨generateChecksumName 1000000, (fun _ => ([] : List Nat))
             (packBytes [7] [8] ++ []), true⟩] : Dir) =
          [⟨generateSnapshotName 999999, [], true⟩,
           ⟨generateSnapshotName 1000000, packBytes [7] [8] ++ [], true⟩,
           ⟨generateChecksumName 1000000, [], true⟩] from rfl]
        rw [List.filter_cons, List.filter_cons, List.filter_cons, List.filter_nil]
        simp only [h1, h2, h3, Bool.and_true, Bool.and_false, Bool.true_and,
          Bool.false_eq_true, if_true, if_false]
        rw [List.map_cons, List.map_nil, parse_generateSnapshotName]
        rfl
      rw [hids]
      rw [if_pos (by decide)]
      rfl
  · have hmax : getMaxSnapshotId
        [⟨generateSnapshotName 999999, [], true⟩,
         ⟨generateSnapshotName 1000000, packBytes [7] [8] ++ [], true⟩,
         ⟨generateChecksumName 1000000, [], true⟩] = 999999 := by
      rw [getMaxSnapshotId_cons, getMaxSnapshotId_cons, getMaxSnapshotId_cons]
      rw [show getMaxSnapshotId [] = 0 from rfl]
      simp only [h1, h2, h3, Bool.and_true, Bool.and_false, Bool.false_eq_true,
        if_true, if_false, parse_generateSnapshotName]
      omega
    have hfc : findFile
        [⟨generateSnapshotName 999999, [], true⟩,
         ⟨generateSnapshotName 1000000, packBytes [7] [8] ++ [], true⟩,
         ⟨generateChecksumName 1000000, [], true⟩]
        (generateChecksumName 999999) = none := by
      rw [findFile_cons_of_ne _ _ _ (by
        simp only
        exact generateSnapshotName_ne_checksumName 999999 999999)]
      rw [findFile_cons_of_ne _ _ _ (by
        simp only
        exact generateSnapshotName_ne_checksumName 1000000 999999)]
      rw [findFile_cons_of_ne _ _ _ (by
        simp only
        intro hc
        exact absurd (generateChecksumName_injective _ _ hc) (by omega))]
      rfl
    rw [load, hmax, if_neg (by omega)]
    rw [verifySnapshotChecksum, readFile, hfc]
